import Mathlib

/-!
Shallow embedding of the dynamic function-hooking engine of
`src/platform_specific/nmd_memory.h` (the `_WIN64` build: pointers are 8
bytes, pages are 0x1000 bytes).

Memory is modelled as a flat byte map `Nat → Nat`; every read takes the
stored value modulo 256 and every write stores modulo 256, so machine
bytes are exact.  The OS virtual-memory services that the code calls are
modelled by oracles: `os : Nat → Bool` answers whether
`NtAllocateVirtualMemory` succeeds at a given hint address (a granted
page is zero-filled, which is the documented `MEM_COMMIT` behaviour),
and `pok : Nat → Nat → Bool` answers whether `NtProtectVirtualMemory`
succeeds for a given base address and new protection value.  Loops whose
termination depends on memory contents carry an explicit fuel parameter;
exhausting the fuel models the C loop running away and is avoided by
every scenario below.
-/

namespace NmdHookEngine

/-- Flat byte memory: the value stored at each 64-bit address. -/
abbrev Mem := Nat → Nat

/-- Reads one byte. -/
def read8 (m : Mem) (a : Nat) : Nat := m a % 256

/-- Writes one byte. -/
def write8 (m : Mem) (a v : Nat) : Mem := fun x => if x = a then v % 256 else m x

/-- Reads a little-endian 16-bit value. -/
def read16 (m : Mem) (a : Nat) : Nat := read8 m a + 256 * read8 m (a + 1)

/-- Reads a little-endian 32-bit value. -/
def read32 (m : Mem) (a : Nat) : Nat := read16 m a + 65536 * read16 m (a + 2)

/-- Reads a little-endian 64-bit value. -/
def read64 (m : Mem) (a : Nat) : Nat := read32 m a + 4294967296 * read32 m (a + 4)

/-- Writes a little-endian 16-bit value. -/
def write16 (m : Mem) (a v : Nat) : Mem := write8 (write8 m a v) (a + 1) (v / 256)

/-- Writes a little-endian 32-bit value. -/
def write32 (m : Mem) (a v : Nat) : Mem := write16 (write16 m a v) (a + 2) (v / 65536)

/-- Writes a little-endian 64-bit value. -/
def write64 (m : Mem) (a v : Nat) : Mem := write32 (write32 m a v) (a + 4) (v / 4294967296)

/-- Zeroes the region `[a, a+n)`; models the zero-fill of freshly committed pages. -/
def zeroRegion (m : Mem) (a n : Nat) : Mem := fun x => if a ≤ x ∧ x < a + n then 0 else m x

/-- Interprets the low `w` bits of `v` as a two's-complement signed value. -/
def sint (w v : Nat) : Int :=
  if v % 2 ^ w < 2 ^ (w - 1) then ((v % 2 ^ w : Nat) : Int) else ((v % 2 ^ w : Nat) : Int) - 2 ^ w

/-- Truncates an integer to its low `w` bits (the value a `w`-bit store keeps). -/
def wrapI (w : Nat) (z : Int) : Nat := (z % ((2 ^ w : Nat) : Int)).toNat

/-- Absolute destination of a 5-byte near jump at `a` whose stored displacement is `d`:
`a + 5 + sign-extended d`, in 64-bit pointer arithmetic. -/
def jumpDest (a d : Nat) : Nat := wrapI 64 ((a : Int) + 5 + sint 32 d)

/-! ## Instruction length decoder (`_nmd_mem_ldisasm`, `_nmd_mem_parse_modrm`) -/

/-- Linear membership scan, translating `_nmd_mem_find_byte`. -/
def _nmd_mem_find_byte (arr : List Nat) (x : Nat) : Bool := arr.any (fun y => y == x)

/-- The `prefixes` table of `_nmd_mem_ldisasm`. -/
def nmdPrefixTable : List Nat := [0xF0, 0xF2, 0xF3, 0x2E, 0x36, 0x3E, 0x26, 0x64, 0x65, 0x66, 0x67]

/-- The `op1modrm` table of `_nmd_mem_ldisasm`. -/
def op1modrm : List Nat :=
  [0x62, 0x63, 0x69, 0x6B, 0xC0, 0xC1, 0xC4, 0xC5, 0xC6, 0xC7, 0xD0, 0xD1, 0xD2, 0xD3, 0xF6, 0xF7, 0xFE, 0xFF]

/-- The `op1imm8` table of `_nmd_mem_ldisasm`. -/
def op1imm8 : List Nat := [0x6A, 0x6B, 0x80, 0x82, 0x83, 0xA8, 0xC0, 0xC1, 0xC6, 0xCD, 0xD4, 0xD5, 0xEB]

/-- The `op1imm32` table of `_nmd_mem_ldisasm`. -/
def op1imm32 : List Nat := [0x68, 0x69, 0x81, 0xA9, 0xC7, 0xE8, 0xE9]

/-- The `op2modrm` table of `_nmd_mem_ldisasm`. -/
def op2modrm : List Nat := [0x0D, 0xA3, 0xA4, 0xA5, 0xAB, 0xAC, 0xAD, 0xAE, 0xAF]

/-- Result of the prefix-parsing loop: the cursor after the prefixes and the three flags. -/
structure PrefixOut where
  b : Nat
  opSize66 : Bool
  adSize67 : Bool
  rexW : Bool
  deriving Repr, DecidableEq

/-- The prefix-parsing `for` loop of `_nmd_mem_ldisasm`.  The C condition is
`i < 14 && find_byte(prefixes, *b) || (x86_64_mode ? (*b >> 4 == 4) : false)`:
`&&` binds tighter than `||`, so in 64-bit mode the `i < 14` bound does not
apply to REX bytes and the loop can run unboundedly; `none` models that the
loop has not exited within `fuel` iterations. -/
def nmdPrefixLoop (m : Mem) (x64 : Bool) : Nat → Nat → Nat → Bool → Bool → Bool → Option PrefixOut
  | 0, _, _, _, _, _ => none
  | fuel + 1, b, i, op66, ad67, rw =>
    let byte := read8 m b
    if (decide (i < 14) && _nmd_mem_find_byte nmdPrefixTable byte) || (x64 && decide (byte / 16 = 4)) then
      nmdPrefixLoop m x64 fuel (b + 1) (i + 1)
        (op66 || byte == 0x66) (ad67 || byte == 0x67)
        (rw || (byte / 16 == 4 && byte % 16 ≥ 8))
    else some ⟨b, op66, ad67, rw⟩

/-- Translation of `_nmd_mem_parse_modrm`: takes the cursor `b0` pointing at the
opcode byte, returns the cursor after the ModR/M byte, optional SIB byte and
displacement.  Faithful to the source, including that after the SIB-byte
advance the third test reads the SIB byte itself. -/
def _nmd_mem_parse_modrm (m : Mem) (b0 : Nat) (ad67 : Bool) : Nat :=
  let b1 := b0 + 1
  let modrm := read8 m b1
  if !ad67 || (ad67 && modrm ≥ 0x40) then
    let hasSIB := modrm < 0xC0 && modrm % 8 == 4 && !ad67
    let b2 := if hasSIB then b1 + 1 else b1
    if 0x40 ≤ modrm ∧ modrm ≤ 0x7F then b2 + 1
    else if (modrm ≤ 0x3F ∧ modrm % 8 = 5) ∨ (0x80 ≤ modrm ∧ modrm ≤ 0xBF) then
      b2 + (if ad67 then 2 else 4)
    else if hasSIB ∧ read8 m b2 % 8 = 5 then
      b2 + (if modrm / 64 % 2 = 1 then 1 else 4)
    else b2
  else if ad67 ∧ modrm = 0x26 then b1 + 2
  else b1

/-- Translation of `_nmd_mem_ldisasm`: byte length of one instruction at
`address`.  `none` models the C prefix loop not having exited within `fuel`
iterations.  Faithful to the source, including that the two-byte-opcode branch
never advances the cursor past the `0x0F` escape byte, so all its tests see
`0x0F` itself. -/
def _nmd_mem_ldisasm (m : Mem) (address : Nat) (x64 : Bool) (fuel : Nat) : Option Nat :=
  match nmdPrefixLoop m x64 fuel address 0 false false false with
  | none => none
  | some pfx =>
    let b := pfx.b
    let op := read8 m b
    let r := op / 16
    let c := op % 16
    if op = 0x0F then
      let offset : Nat :=
        if r = 8 then 4
        else if (r = 7 ∧ c < 4) ∨ op = 0xA4 ∨ op = 0xC2 ∨ (op > 0xC3 ∧ op ≤ 0xC6) ∨ op = 0xBA ∨ op = 0xAC then 1
        else 0
      let b2 :=
        if _nmd_mem_find_byte op2modrm op ∨ (r ≠ 3 ∧ r > 0 ∧ r < 7) ∨ op ≥ 0xD0 ∨
            (r = 7 ∧ c ≠ 7) ∨ r = 9 ∨ r = 0xB ∨ (r = 0xC ∧ c < 8) ∨ (r = 0 ∧ c < 4) then
          _nmd_mem_parse_modrm m b pfx.adSize67
        else b
      some (b2 + 1 + offset - address)
    else
      let offset : Nat :=
        if (r = 0xE ∧ c < 8) ∨ (r = 0xB ∧ c < 8) ∨ r = 7 ∨ (r < 4 ∧ (c = 4 ∨ c = 0xC)) ∨
            (op = 0xF6 ∧ read8 m (b + 1) &&& 48 = 0) ∨ _nmd_mem_find_byte op1imm8 op then 1
        else if op = 0xC2 ∨ op = 0xCA then 2
        else if op = 0xC8 then 3
        else if (r < 4 ∧ (c = 5 ∨ c = 0xD)) ∨ (r = 0xB ∧ c ≥ 8) ∨
            (op = 0xF7 ∧ read8 m (b + 1) &&& 48 = 0) ∨ _nmd_mem_find_byte op1imm32 op then
          if pfx.rexW then 8 else if pfx.opSize66 then 2 else 4
        else if r = 0xA ∧ c < 4 then
          if pfx.rexW then 8 else if pfx.adSize67 then 2 else 4
        else if op = 0xEA ∨ op = 0x9A then
          if pfx.opSize66 then 4 else 6
        else 0
      let b2 :=
        if _nmd_mem_find_byte op1modrm op ∨ (r < 4 ∧ (c < 4 ∨ (c ≥ 8 ∧ c < 0xC))) ∨ r = 8 ∨
            (r = 0xD ∧ c ≥ 8) then
          _nmd_mem_parse_modrm m b pfx.adSize67
        else b
      some (b2 + 1 + offset - address)

/-! ## Hook region allocator -/

/-- Process-wide hook-engine state: the byte memory, the head of the hook-page
list (`_nmd_first_hook_page`; 0 is the null pointer), and the per-address
memory protection map maintained by the modelled `NtProtectVirtualMemory`. -/
structure HookState where
  mem : Mem
  first : Nat
  prot : Nat → Nat

/-- The probe loop of `_nmd_alloc_page_near` (`_WIN64` branch): starting at
`addr + 0x1000`, probe forward in page steps until the OS grants an
allocation; give up (returning the null pointer 0) once the probe address
leaves the low half of the address space or gets within a page of
`addr + 2^31`. -/
def allocPageGo (os : Nat → Bool) (addr : Nat) : Nat → Nat → Nat
  | 0, _ => 0
  | fuel + 1, ta =>
    if os ta then ta
    else if ta ≥ 2 ^ 63 ∨ ta ≥ addr + 2 ^ 31 - 0x1000 then 0
    else allocPageGo os addr fuel (ta + 0x1000)

/-- Translation of `_nmd_alloc_page_near` (`_WIN64` branch). -/
def _nmd_alloc_page_near (os : Nat → Bool) (addr : Nat) : Nat :=
  allocPageGo os addr 0x80000 (addr + 0x1000)

/-- The record-walk loop of `_nmd_find_free_hook_data`.  A record header is 4
bytes: `uint16 type` at offset 0, `uint16 size` at offset 2.  The loop reads
the record at `hd` first (also when `hd` sits at a page boundary, exactly as
the C `while` condition does) and only then tests the page-boundary exit. -/
def findFreeGo (m : Mem) (size : Nat) : Nat → Nat → Nat
  | 0, _ => 0
  | fuel + 1, hd =>
    if read16 m hd ≠ 0 ∨ size > read16 m (hd + 2) then
      if hd % 0x1000 = 0 then 0
      else findFreeGo m size fuel (hd + 4 + read16 m (hd + 2))
    else hd

/-- Translation of `_nmd_find_free_hook_data`: first record sits at
`page + 8` (after the 8-byte `next` pointer of `_nmd_hook_page`). -/
def _nmd_find_free_hook_data (m : Mem) (page size : Nat) : Nat :=
  findFreeGo m size 0x1000 (page + 8)

/-- Formats a brand-new page `p` exactly as `_nmd_alloc_hook_data_near` does:
the allocated record header at `p+8` (size then type), then the size field of
the trailing record at `p + 12 + size`, set to `0x1000 - (8 + 4 + size)`
truncated to 16 bits.  (The source omits the trailing record's own 4-byte
header from this computation, so that record extends 4 bytes past the page
end.)  Also used, with `p = 0`, by the null-pointer path of the
subsequent-page branch. -/
def allocFreshPageFormat (m : Mem) (p ty size : Nat) : Mem :=
  let m1 := write16 m (p + 8 + 2) size
  let m2 := write16 m1 (p + 8) ty
  write16 m2 (p + 12 + size + 2) (wrapI 16 ((0x1000 : Int) - (8 + 4 + (size : Int))))

/-- The in-page allocation of `_nmd_alloc_hook_data_near` once
`_nmd_find_free_hook_data` found a suitable record at `hd`:
`remaining_bytes` is the distance from the end of the requested record to the
end of its page; a remainder smaller than `10 + sizeof(header)` is absorbed
into the allocation, otherwise the remainder's size field is written (its type
field is left untouched). -/
def allocSplit (st : HookState) (hd ty size : Nat) : HookState × Nat :=
  let remaining := (0x1000 - ((hd + 4 + size) % 0x1000)) % 0x1000
  if remaining < 10 + 4 then
    let m1 := write16 st.mem (hd + 2) (size + remaining)
    let m2 := write16 m1 hd ty
    ({ st with mem := m2 }, hd + 4)
  else
    let m0 := write16 st.mem (hd + 4 + size + 2) (remaining - 4)
    let m1 := write16 m0 (hd + 2) size
    let m2 := write16 m1 hd ty
    ({ st with mem := m2 }, hd + 4)

/-- The page-list walk of `_nmd_alloc_hook_data_near`.  Faithful to the
source, including the subsequent-page branch
`if ((hook_page->next = _nmd_alloc_page_near(target))) return 0;`:
when the OS grants a page the function links it and returns the null pointer,
and when the OS denies it falls through and formats the "page" at the null
pointer, returning the non-null garbage pointer `0 + 8 + 4 = 12`. -/
def allocWalk (os : Nat → Bool) (target ty size : Nat) : Nat → HookState → Nat → HookState × Nat
  | 0, st, _ => (st, 0)
  | fuel + 1, st, page =>
    let lowBound : Nat := if target ≤ 2 ^ 31 - 0x1000 then 0x1000 else target + 0x1000 - 2 ^ 31
    let hd := if page < target + 2 ^ 31 ∧ lowBound < page then _nmd_find_free_hook_data st.mem page size else 0
    if hd ≠ 0 then allocSplit st hd ty size
    else if read64 st.mem page = 0 then
      let p := _nmd_alloc_page_near os target
      let m1 := write64 st.mem page p
      if p ≠ 0 then ({ st with mem := zeroRegion m1 p 0x1000 }, 0)
      else ({ st with mem := allocFreshPageFormat m1 0 ty size }, 12)
    else allocWalk os target ty size fuel st (read64 st.mem page)

/-- Translation of `_nmd_alloc_hook_data_near`. -/
def _nmd_alloc_hook_data_near (os : Nat → Bool) (st : HookState) (target ty size : Nat) :
    HookState × Nat :=
  if st.first = 0 then
    let p := _nmd_alloc_page_near os target
    if p = 0 then (st, 0)
    else
      let m0 := zeroRegion st.mem p 0x1000
      ({ st with mem := allocFreshPageFormat m0 p ty size, first := p }, p + 12)
  else allocWalk os target ty size 64 st st.first

/-- Translation of `_nmd_alloc_trampoline`. -/
def _nmd_alloc_trampoline (os : Nat → Bool) (st : HookState) (target n : Nat) : HookState × Nat :=
  _nmd_alloc_hook_data_near os st target 1 (n + 5)

/-- Translation of `_nmd_alloc_absolute_jump`. -/
def _nmd_alloc_absolute_jump (os : Nat → Bool) (st : HookState) (target : Nat) : HookState × Nat :=
  _nmd_alloc_hook_data_near os st target 2 12

/-! ## Hook engine -/

/-- Sets the protection of the region `[base, base+size)` to `v`. -/
def setProt (p : Nat → Nat) (base size v : Nat) : Nat → Nat :=
  fun x => if base ≤ x ∧ x < base + size then v else p x

/-- Model of `NtProtectVirtualMemory`: when the oracle grants the call it sets
the protection of `[base, base+size)` to `newp` and reports the previous value
at `base`; `none` is a denied call, which changes nothing. -/
def ntProtect (pok : Nat → Nat → Bool) (st : HookState) (base size newp : Nat) :
    Option (HookState × Nat) :=
  if pok base newp then
    some ({ st with prot := setProt st.prot base size newp }, st.prot base)
  else none

/-- The byte-copy loops of `nmd_hook` and `_nmd_unhook_page`
(`for (i = 0; i < n; i++) dst[i] = src[i];`), reading the evolving memory. -/
def copyLoop (m : Mem) (dst src : Nat) : Nat → Mem
  | 0 => m
  | k + 1 =>
    let mk := copyLoop m dst src k
    write8 mk (dst + k) (read8 mk (src + k))

/-- The patch-length loop of `nmd_hook`:
`while (num_copy_bytes < 5) num_copy_bytes += _nmd_mem_ldisasm(...)`. -/
def hookNumCopy (m : Mem) (target : Nat) (x64 : Bool) (dfuel : Nat) : Nat → Nat → Option Nat
  | 0, _ => none
  | fuel + 1, acc =>
    if acc < 5 then
      match _nmd_mem_ldisasm m (target + acc) x64 dfuel with
      | none => none
      | some len => hookNumCopy m target x64 dfuel fuel (acc + len)
    else some acc

/-- Translation of `nmd_hook` (`_WIN64` build).  Returns
`some (state, returnValue, flush)` where `flush` records the single
`FlushInstructionCache(target, 5)` call of the success path; `none` models the
patch-length loop not finishing within its fuel.  `original` is the optional
out-parameter address; when present, the trampoline pointer is stored through
it (8 bytes) before the protection change, exactly as in the source. -/
def nmd_hook (dfuel : Nat) (os : Nat → Bool) (pok : Nat → Nat → Bool) (st : HookState)
    (target detour : Nat) (original : Option Nat) :
    Option (HookState × Bool × Option (Nat × Nat)) :=
  let delta : Int := sint 64 (wrapI 64 ((detour : Int) - ((target : Int) + 5)))
  match hookNumCopy st.mem target true dfuel 8 0 with
  | none => none
  | some n =>
    let r1 := _nmd_alloc_trampoline os st target n
    let st1 := r1.1
    let tramp := r1.2
    if tramp = 0 then some (st1, false, none)
    else
      let m2 :=
        if read8 st1.mem target = 0xE9 then
          let ma := write8 st1.mem tramp 0xE9
          write32 ma (tramp + 1)
            (wrapI 32 ((sint 32 (read32 st1.mem (target + 1)) + ((target : Int) + 5)) - ((tramp : Int) + 5)))
        else copyLoop st1.mem tramp target n
      let m3 := write8 m2 (tramp + n) 0xE9
      let m4 := write32 m3 (tramp + n + 1) (wrapI 32 (((target : Int) + n) - ((tramp : Int) + n + 5)))
      let m5 := match original with
        | some oa => write64 m4 oa tramp
        | none => m4
      let st2 := { st1 with mem := m5 }
      match ntProtect pok st2 target n 0x40 with
      | none => some (st2, false, none)
      | some (st3, oldp) =>
        if delta < -(2 ^ 31 : Int) ∨ delta > 2 ^ 31 - 1 then
          let r2 := _nmd_alloc_absolute_jump os st3 target
          let st4 := r2.1
          let stub := r2.2
          if stub = 0 then some (st4, false, none)
          else
            let ma := write16 st4.mem stub 0xB848
            let mb := write64 ma (stub + 2) detour
            let mc := write16 mb (stub + 10) 0xE0FF
            let md := write8 mc target 0xE9
            let me := write32 md (target + 1) (wrapI 32 ((stub : Int) - ((target : Int) + 5)))
            let st5 := { st4 with mem := me }
            let st6 := match ntProtect pok st5 target n oldp with
              | some (s, _) => s
              | none => st5
            some (st6, true, some (target, 5))
        else
          let md := write8 st3.mem target 0xE9
          let me := write32 md (target + 1) (wrapI 32 delta)
          let st5 := { st3 with mem := me }
          let st6 := match ntProtect pok st5 target n oldp with
            | some (s, _) => s
            | none => st5
          some (st6, true, some (target, 5))

/-- The record walk of `_nmd_unhook_page` (a `do … while` over the records of
one page).  For a `TRAMPOLINE` record of header size `size`, the saved byte
count is the `size_t` value `size - 5` and the trailing jump's displacement
sits at `hd + 4 + size - 4`; the record matches when that jump's absolute
destination equals `target + (size - 5)` in 64-bit pointer arithmetic.  On a
match: protect, copy the saved bytes back, restore protection, mark the record
free, and absorb an immediately following free record of the same page. -/
def unhookScan (pok : Nat → Nat → Bool) (target page : Nat) : Nat → HookState → Nat → HookState × Bool
  | 0, st, _ => (st, false)
  | fuel + 1, st, hd =>
    let size := read16 st.mem (hd + 2)
    let matched : Bool :=
      (read16 st.mem hd == 1) &&
        (wrapI 64 (((hd : Int) + size + 4) + sint 32 (read32 st.mem (hd + size))) ==
          wrapI 64 ((target : Int) + ((size : Int) - 5)))
    if matched then
      let n := wrapI 64 ((size : Int) - 5)
      match ntProtect pok st target n 0x40 with
      | none => (st, false)
      | some (stp, oldp) =>
        let m1 := copyLoop stp.mem target (hd + 4) n
        let st2 := { stp with mem := m1 }
        let st3 := match ntProtect pok st2 target n oldp with
          | some (s, _) => s
          | none => st2
        let m2 := write16 st3.mem hd 0
        let nxt := hd + 4 + size
        let m3 :=
          if nxt % 0x1000 ≠ 0 ∧ read16 m2 nxt = 0 then
            write16 m2 (hd + 2) (size + 4 + read16 m2 (nxt + 2))
          else m2
        ({ st3 with mem := m3 }, true)
    else
      let hd2 := hd + 4 + size
      if hd2 % 0x1000 = 0 then (st, false)
      else unhookScan pok target page fuel st hd2

/-- Translation of `_nmd_unhook_page`. -/
def _nmd_unhook_page (pok : Nat → Nat → Bool) (st : HookState) (target page : Nat) :
    HookState × Bool :=
  unhookScan pok target page 0x1000 st (page + 8)

/-- The page-list loop of `nmd_unhook`. -/
def unhookPages (pok : Nat → Nat → Bool) (target : Nat) : Nat → HookState → Nat → HookState × Bool
  | 0, st, _ => (st, false)
  | fuel + 1, st, page =>
    let r := _nmd_unhook_page pok st target page
    if r.2 then (r.1, true)
    else if read64 r.1.mem page = 0 then (r.1, false)
    else unhookPages pok target fuel r.1 (read64 r.1.mem page)

/-- Translation of `nmd_unhook`. -/
def nmd_unhook (pok : Nat → Nat → Bool) (st : HookState) (target : Nat) : HookState × Bool :=
  if st.first = 0 then (st, false)
  else unhookPages pok target 64 st st.first

/-! ## Record-layout invariant (claim C3) -/

/-- Walks the record headers of the page at `page` from `page + 8`, summing
`4 + size` extents, and returns the first walk position at or past the page
end.  The spec's record invariant (records tile the page with no gaps and the
last record ends exactly at the page end) holds iff this returns
`page + 0x1000`. -/
def recordsEndGo (m : Mem) (page : Nat) : Nat → Nat → Nat
  | 0, a => a
  | fuel + 1, a =>
    if page + 0x1000 ≤ a then a
    else recordsEndGo m page fuel (a + 4 + read16 m (a + 2))

/-- First record-walk position at or past the end of `page`. -/
def recordsEnd (m : Mem) (page : Nat) : Nat := recordsEndGo m page 0x1000 (page + 8)

/-- Decides the spec's record-packing invariant for one page. -/
def recordsTile (m : Mem) (page : Nat) : Bool := recordsEnd m page == page + 0x1000

/-! ## Oracles used by the scenarios -/

/-- Page-allocation oracle that grants every request. -/
def osAll : Nat → Bool := fun _ => true

/-- Page-allocation oracle that denies every request. -/
def osNone : Nat → Bool := fun _ => false

/-- Protection oracle that grants every request. -/
def pokAll : Nat → Nat → Bool := fun _ _ => true

/-- Protection oracle that denies every request. -/
def pokNone : Nat → Nat → Bool := fun _ _ => false

/-! ## Concrete scenarios used by the counterexamples and evaluation theorems -/

/-- Memory holding five `nop` (0x90) bytes at `0x10000`, zero elsewhere. -/
def nopMem : Mem := fun a => if 0x10000 ≤ a ∧ a < 0x10005 then 0x90 else 0

/-- Fresh state over `nopMem`, original protection 0x20 everywhere. -/
def nopSt : HookState := ⟨nopMem, 0, fun _ => 0x20⟩

/-- Hooking the five-nop target from a fresh state (everything granted). -/
def nopHook : Option (HookState × Bool × Option (Nat × Nat)) :=
  nmd_hook 0x40 osAll pokAll nopSt 0x10000 0x10100 none

/-- State after `nopHook`. -/
def nopHookedSt : HookState := match nopHook with | some r => r.1 | none => nopSt

/-- Return value of `nopHook`. -/
def nopHookOk : Bool := match nopHook with | some r => r.2.1 | none => false

/-- Hooking the five-nop target when `NtProtectVirtualMemory` denies the call. -/
def nopHookProtFail : Option (HookState × Bool × Option (Nat × Nat)) :=
  nmd_hook 0x40 osAll pokNone nopSt 0x10000 0x10100 none

/-- State after the protection-denied hook attempt. -/
def nopProtFailSt : HookState := match nopHookProtFail with | some r => r.1 | none => nopSt

/-- Return value of the protection-denied hook attempt. -/
def nopProtFailOk : Bool := match nopHookProtFail with | some r => r.2.1 | none => true

/-- Memory whose target `0x100000000` starts with a near jump `E9 00 00 00 80`
(displacement `-2^31`), zero elsewhere. -/
def e9Mem : Mem := fun a => if a = 0x100000000 then 0xE9 else if a = 0x100000004 then 0x80 else 0

/-- Fresh state over `e9Mem`. -/
def e9St : HookState := ⟨e9Mem, 0, fun _ => 0x20⟩

/-- Hooking the jump-leading target from a fresh state. -/
def e9Hooked : Option (HookState × Bool × Option (Nat × Nat)) :=
  nmd_hook 0x40 osAll pokAll e9St 0x100000000 0x100000100 none

/-- State after hooking the jump-leading target. -/
def e9HookedSt : HookState := match e9Hooked with | some r => r.1 | none => e9St

/-- Return value of the jump-leading hook. -/
def e9HookOk : Bool := match e9Hooked with | some r => r.2.1 | none => false

/-- Unhooking the jump-leading target after hooking it. -/
def e9Round : HookState × Bool := nmd_unhook pokAll e9HookedSt 0x100000000

/-- State after the jump-leading round trip. -/
def e9RoundSt : HookState := e9Round.1

/-- Return value of the jump-leading unhook. -/
def e9RoundOk : Bool := e9Round.2

/-- Memory describing a hook page at `0x200000` with no free record: the
record at `0x200008` has type 1 (TRAMPOLINE) and size 0xFF0 (little-endian
bytes F0 0F at `0x20000A`), and the following record at `0x200FFC` has type 1
and size 0, so the whole page is occupied. -/
def fullPageMem : Mem := fun a =>
  if a = 0x200008 then 1 else if a = 0x20000A then 0xF0 else if a = 0x20000B then 0x0F
  else if a = 0x200FFC then 1 else 0

/-- State whose hook-page list holds exactly the full page at `0x200000`. -/
def fullPageSt : HookState := ⟨fullPageMem, 0x200000, fun _ => 0x20⟩

/-- Memory for the allocator-reuse scenario: one hook page at `0x11000` whose
record list is exactly what two hooks followed by one unhook produce — record
A at `0x11008`: type 0 (Free), size 10; record B at `0x11016`: type 1
(TRAMPOLINE), size 15, payload `90 90 90 90 81 C0 00 00 00 00` and trailing
jump `E9 E1 F0 FF FF` (absolute destination `0x1010A = 0x10100 + 10`); free
record at `0x11029` of size 4051 reaching the page end; plus five nop bytes at
the fresh target `0x10200`. -/
def c8mem : Mem := fun a =>
  if a = 0x1100A then 10
  else if a = 0x11016 then 1
  else if a = 0x11018 then 15
  else if 0x1101A ≤ a ∧ a < 0x1101E then 0x90
  else if a = 0x1101E then 0x81
  else if a = 0x1101F then 0xC0
  else if a = 0x11024 then 0xE9
  else if a = 0x11025 then 0xE1
  else if a = 0x11026 then 0xF0
  else if a = 0x11027 then 0xFF
  else if a = 0x11028 then 0xFF
  else if a = 0x1102B then 0xD3
  else if a = 0x1102C then 0x0F
  else if 0x10200 ≤ a ∧ a < 0x10205 then 0x90
  else 0

/-- State whose hook-page list holds the page of `c8mem`. -/
def c8St : HookState := ⟨c8mem, 0x11000, fun _ => 0x20⟩

/-- Step 1 of the reuse scenario: unhook `0x10100`, freeing record B. -/
def c8un : HookState × Bool := nmd_unhook pokAll c8St 0x10100

/-- State after freeing record B. -/
def c8unSt : HookState := c8un.1

/-- Return value of the free. -/
def c8unOk : Bool := c8un.2

/-- Step 2: hook `0x10200` (record size 10, no larger than the just-freed
record B of size 15), with the out-parameter at `0x30000` so the returned
trampoline address is observable in memory. -/
def c8hk : Option (HookState × Bool × Option (Nat × Nat)) :=
  nmd_hook 0x40 osAll pokAll c8unSt 0x10200 0x20200 (some 0x30000)

/-! ## Derived state shapes used by the path lemmas and witnesses -/

/-- The hook-page memory after `nmd_hook` has allocated the fresh trampoline
page and filled the trampoline record: the formatted page, the copied (or, for
a jump-leading target, re-emitted) first instructions and the trailing
near jump back to `target + n`. -/
def trampFill (m0 : Mem) (target n : Nat) : Mem :=
  let mA := allocFreshPageFormat (zeroRegion m0 (target + 0x1000) 0x1000) (target + 0x1000) 1 (n + 5)
  let tramp := target + 0x1000 + 12
  let m2 := if read8 mA target = 0xE9 then
      write32 (write8 mA tramp 0xE9) (tramp + 1)
        (wrapI 32 ((sint 32 (read32 mA (target + 1)) + ((target : Int) + 5)) - ((tramp : Int) + 5)))
    else copyLoop mA tramp target n
  write32 (write8 m2 (tramp + n) 0xE9) (tramp + n + 1)
    (wrapI 32 (((target : Int) + (n : Int)) - ((tramp : Int) + (n : Int) + 5)))

/-- The final memory of the stub-allocation failure path: the trampoline page
as built, the `*original` store at `oa`, and the page recycled by the
subsequent-page branch (next pointer written, then the whole page zeroed by
the freshly granted mapping at the same address). -/
def stubFailMem (m0 : Mem) (target n oa : Nat) : Mem :=
  zeroRegion (write64 (write64 (write32 (write8 (copyLoop
    (allocFreshPageFormat (zeroRegion m0 (target + 0x1000) 0x1000) (target + 0x1000) 1 (n + 5))
    (target + 0x1000 + 12) target n) (target + 0x1000 + 12 + n) 0xE9) (target + 0x1000 + 12 + n + 1)
    (wrapI 32 ((target : Int) + (n : Int) - (((target + 0x1000 + 12 : Nat) : Int) + (n : Int) + 5))))
    oa (target + 0x1000 + 12)) (target + 0x1000) (target + 0x1000)) (target + 0x1000) 0x1000

/-- Memory whose target `0x80000000` holds one instruction of 4068 REX
prefixes followed by a nop: its patch length is 4069, which makes the fresh
page's trailing free record too small for an absolute-jump stub. -/
def c9bMem : Mem := fun a => if a < 0x80000FE4 then 0x40 else if a = 0x80000FE4 then 0x90 else 0

/-- Memory holding the 6-byte instruction `81 C0 00 00 00 00` at `0x5000`. -/
def c10Mem : Mem := fun a => if a = 0x5000 then 0x81 else if a = 0x5001 then 0xC0 else 0

/-- Memory holding five nops at the high target `0x80000000`. -/
def c5farMem : Mem := fun a => if 0x80000000 ≤ a ∧ a < 0x80000005 then 0x90 else 0

/-! ## Read-over-write lemmas -/

theorem read8_lt (m : Mem) (a : Nat) : read8 m a < 256 := Nat.mod_lt _ (by omega)

theorem read8_write8_self (m : Mem) (a v : Nat) : read8 (write8 m a v) a = v % 256 := by
  unfold read8 write8
  rw [if_pos rfl]
  omega

theorem read8_write8_ne (m : Mem) (a v x : Nat) (h : x ≠ a) :
    read8 (write8 m a v) x = read8 m x := by
  simp only [read8, write8, if_neg h]

theorem read8_write16_ne (m : Mem) (a v x : Nat) (h : x < a ∨ a + 2 ≤ x) :
    read8 (write16 m a v) x = read8 m x := by
  simp only [write16]
  rw [read8_write8_ne _ _ _ _ (by omega), read8_write8_ne _ _ _ _ (by omega)]

theorem read8_write32_ne (m : Mem) (a v x : Nat) (h : x < a ∨ a + 4 ≤ x) :
    read8 (write32 m a v) x = read8 m x := by
  simp only [write32]
  rw [read8_write16_ne _ _ _ _ (by omega), read8_write16_ne _ _ _ _ (by omega)]

theorem read8_write64_ne (m : Mem) (a v x : Nat) (h : x < a ∨ a + 8 ≤ x) :
    read8 (write64 m a v) x = read8 m x := by
  simp only [write64]
  rw [read8_write32_ne _ _ _ _ (by omega), read8_write32_ne _ _ _ _ (by omega)]

theorem read8_zeroRegion_in (m : Mem) (a n x : Nat) (h : a ≤ x ∧ x < a + n) :
    read8 (zeroRegion m a n) x = 0 := by
  simp only [read8, zeroRegion, if_pos h]

theorem read8_zeroRegion_out (m : Mem) (a n x : Nat) (h : x < a ∨ a + n ≤ x) :
    read8 (zeroRegion m a n) x = read8 m x := by
  simp only [read8, zeroRegion]
  rw [if_neg (by omega)]

theorem read8_copyLoop_out (m : Mem) (dst src n x : Nat) (h : x < dst ∨ dst + n ≤ x) :
    read8 (copyLoop m dst src n) x = read8 m x := by
  induction n with
  | zero => rfl
  | succ k ih =>
    simp only [copyLoop]
    rw [read8_write8_ne _ _ _ _ (by omega), ih (by omega)]

theorem read8_copyLoop_in (m : Mem) (dst src n j : Nat)
    (hdisj : dst + n ≤ src ∨ src + n ≤ dst) (hj : j < n) :
    read8 (copyLoop m dst src n) (dst + j) = read8 m (src + j) := by
  induction n with
  | zero => omega
  | succ k ih =>
    simp only [copyLoop]
    rcases Nat.lt_or_ge j k with hjk | hjk
    · rw [read8_write8_ne _ _ _ _ (by omega), ih (by omega) hjk]
    · have hjek : j = k := by omega
      subst hjek
      rw [read8_write8_self, read8_copyLoop_out _ _ _ _ _ (by omega),
        Nat.mod_eq_of_lt (read8_lt _ _)]

theorem read16_write8_ne (m : Mem) (a v x : Nat) (h : a < x ∨ x + 2 ≤ a) :
    read16 (write8 m a v) x = read16 m x := by
  simp only [read16]
  rw [read8_write8_ne _ _ _ _ (by omega), read8_write8_ne _ _ _ _ (by omega)]

theorem read16_write16_self (m : Mem) (a v : Nat) : read16 (write16 m a v) a = v % 65536 := by
  have h1 : read8 (write8 (write8 m a v) (a + 1) (v / 256)) a = v % 256 := by
    rw [read8_write8_ne _ _ _ _ (by omega), read8_write8_self]
  have h2 : read8 (write8 (write8 m a v) (a + 1) (v / 256)) (a + 1) = v / 256 % 256 :=
    read8_write8_self _ _ _
  simp only [read16, write16, h1, h2]
  omega

theorem read16_write16_ne (m : Mem) (a v x : Nat) (h : x + 2 ≤ a ∨ a + 2 ≤ x) :
    read16 (write16 m a v) x = read16 m x := by
  simp only [write16]
  rw [read16_write8_ne _ _ _ _ (by omega), read16_write8_ne _ _ _ _ (by omega)]

theorem read16_write32_ne (m : Mem) (a v x : Nat) (h : x + 2 ≤ a ∨ a + 4 ≤ x) :
    read16 (write32 m a v) x = read16 m x := by
  simp only [write32]
  rw [read16_write16_ne _ _ _ _ (by omega), read16_write16_ne _ _ _ _ (by omega)]

theorem read16_write64_ne (m : Mem) (a v x : Nat) (h : x + 2 ≤ a ∨ a + 8 ≤ x) :
    read16 (write64 m a v) x = read16 m x := by
  simp only [write64]
  rw [read16_write32_ne _ _ _ _ (by omega), read16_write32_ne _ _ _ _ (by omega)]

theorem read16_zeroRegion_in (m : Mem) (a n x : Nat) (h : a ≤ x ∧ x + 2 ≤ a + n) :
    read16 (zeroRegion m a n) x = 0 := by
  simp only [read16]
  rw [read8_zeroRegion_in _ _ _ _ (by omega), read8_zeroRegion_in _ _ _ _ (by omega)]

theorem read16_zeroRegion_out (m : Mem) (a n x : Nat) (h : x + 2 ≤ a ∨ a + n ≤ x) :
    read16 (zeroRegion m a n) x = read16 m x := by
  simp only [read16]
  rw [read8_zeroRegion_out _ _ _ _ (by omega), read8_zeroRegion_out _ _ _ _ (by omega)]

theorem read16_copyLoop_out (m : Mem) (dst src n x : Nat) (h : x + 2 ≤ dst ∨ dst + n ≤ x) :
    read16 (copyLoop m dst src n) x = read16 m x := by
  simp only [read16]
  rw [read8_copyLoop_out _ _ _ _ _ (by omega), read8_copyLoop_out _ _ _ _ _ (by omega)]

theorem read32_write8_ne (m : Mem) (a v x : Nat) (h : a < x ∨ x + 4 ≤ a) :
    read32 (write8 m a v) x = read32 m x := by
  simp only [read32]
  rw [read16_write8_ne _ _ _ _ (by omega), read16_write8_ne _ _ _ _ (by omega)]

theorem read32_write16_ne (m : Mem) (a v x : Nat) (h : x + 4 ≤ a ∨ a + 2 ≤ x) :
    read32 (write16 m a v) x = read32 m x := by
  simp only [read32]
  rw [read16_write16_ne _ _ _ _ (by omega), read16_write16_ne _ _ _ _ (by omega)]

theorem read32_write32_self (m : Mem) (a v : Nat) :
    read32 (write32 m a v) a = v % 4294967296 := by
  have h1 : read16 (write16 (write16 m a v) (a + 2) (v / 65536)) a = v % 65536 := by
    rw [read16_write16_ne _ _ _ _ (by omega), read16_write16_self]
  have h2 : read16 (write16 (write16 m a v) (a + 2) (v / 65536)) (a + 2) = v / 65536 % 65536 :=
    read16_write16_self _ _ _
  simp only [read32, write32, h1, h2]
  omega

theorem read32_write32_ne (m : Mem) (a v x : Nat) (h : x + 4 ≤ a ∨ a + 4 ≤ x) :
    read32 (write32 m a v) x = read32 m x := by
  simp only [write32]
  rw [read32_write16_ne _ _ _ _ (by omega), read32_write16_ne _ _ _ _ (by omega)]

theorem read32_write64_ne (m : Mem) (a v x : Nat) (h : x + 4 ≤ a ∨ a + 8 ≤ x) :
    read32 (write64 m a v) x = read32 m x := by
  simp only [write64]
  rw [read32_write32_ne _ _ _ _ (by omega), read32_write32_ne _ _ _ _ (by omega)]

theorem read32_zeroRegion_out (m : Mem) (a n x : Nat) (h : x + 4 ≤ a ∨ a + n ≤ x) :
    read32 (zeroRegion m a n) x = read32 m x := by
  simp only [read32]
  rw [read16_zeroRegion_out _ _ _ _ (by omega), read16_zeroRegion_out _ _ _ _ (by omega)]

theorem read32_copyLoop_out (m : Mem) (dst src n x : Nat) (h : x + 4 ≤ dst ∨ dst + n ≤ x) :
    read32 (copyLoop m dst src n) x = read32 m x := by
  simp only [read32]
  rw [read16_copyLoop_out _ _ _ _ _ (by omega), read16_copyLoop_out _ _ _ _ _ (by omega)]

theorem read64_write64_self (m : Mem) (a v : Nat) :
    read64 (write64 m a v) a = v % 18446744073709551616 := by
  have h1 : read32 (write32 (write32 m a v) (a + 4) (v / 4294967296)) a = v % 4294967296 := by
    rw [read32_write32_ne _ _ _ _ (by omega), read32_write32_self]
  have h2 : read32 (write32 (write32 m a v) (a + 4) (v / 4294967296)) (a + 4) =
      v / 4294967296 % 4294967296 :=
    read32_write32_self _ _ _
  simp only [read64, write64, h1, h2]
  omega

theorem read64_write8_ne (m : Mem) (a v x : Nat) (h : a < x ∨ x + 8 ≤ a) :
    read64 (write8 m a v) x = read64 m x := by
  simp only [read64]
  rw [read32_write8_ne _ _ _ _ (by omega), read32_write8_ne _ _ _ _ (by omega)]

theorem read64_write16_ne (m : Mem) (a v x : Nat) (h : x + 8 ≤ a ∨ a + 2 ≤ x) :
    read64 (write16 m a v) x = read64 m x := by
  simp only [read64]
  rw [read32_write16_ne _ _ _ _ (by omega), read32_write16_ne _ _ _ _ (by omega)]

theorem read64_write32_ne (m : Mem) (a v x : Nat) (h : x + 8 ≤ a ∨ a + 4 ≤ x) :
    read64 (write32 m a v) x = read64 m x := by
  simp only [read64]
  rw [read32_write32_ne _ _ _ _ (by omega), read32_write32_ne _ _ _ _ (by omega)]

theorem read64_write64_ne (m : Mem) (a v x : Nat) (h : x + 8 ≤ a ∨ a + 8 ≤ x) :
    read64 (write64 m a v) x = read64 m x := by
  simp only [write64]
  rw [read64_write32_ne _ _ _ _ (by omega), read64_write32_ne _ _ _ _ (by omega)]

theorem read64_zeroRegion_in (m : Mem) (a n x : Nat) (h : a ≤ x ∧ x + 8 ≤ a + n) :
    read64 (zeroRegion m a n) x = 0 := by
  simp only [read64, read32, read16]
  rw [read8_zeroRegion_in _ _ _ _ (by omega), read8_zeroRegion_in _ _ _ _ (by omega),
    read8_zeroRegion_in _ _ _ _ (by omega), read8_zeroRegion_in _ _ _ _ (by omega),
    read8_zeroRegion_in _ _ _ _ (by omega), read8_zeroRegion_in _ _ _ _ (by omega),
    read8_zeroRegion_in _ _ _ _ (by omega), read8_zeroRegion_in _ _ _ _ (by omega)]

theorem read64_zeroRegion_out (m : Mem) (a n x : Nat) (h : x + 8 ≤ a ∨ a + n ≤ x) :
    read64 (zeroRegion m a n) x = read64 m x := by
  simp only [read64]
  rw [read32_zeroRegion_out _ _ _ _ (by omega), read32_zeroRegion_out _ _ _ _ (by omega)]

theorem read64_copyLoop_out (m : Mem) (dst src n x : Nat) (h : x + 8 ≤ dst ∨ dst + n ≤ x) :
    read64 (copyLoop m dst src n) x = read64 m x := by
  simp only [read64]
  rw [read32_copyLoop_out _ _ _ _ _ (by omega), read32_copyLoop_out _ _ _ _ _ (by omega)]

theorem wrapI16_lt (z : Int) : wrapI 16 z < 65536 := by
  simp only [wrapI]; omega

theorem wrapI32_lt (z : Int) : wrapI 32 z < 4294967296 := by
  simp only [wrapI]; omega

theorem wrapI64_lt (z : Int) : wrapI 64 z < 18446744073709551616 := by
  simp only [wrapI]; omega

theorem ntProtect_pokAll (st : HookState) (b s p : Nat) :
    ntProtect pokAll st b s p = some ({ st with prot := setProt st.prot b s p }, st.prot b) := by
  simp [ntProtect, pokAll]

theorem setProt_in (p : Nat → Nat) (base size v x : Nat) (h : base ≤ x ∧ x < base + size) :
    setProt p base size v x = v := by
  simp only [setProt, if_pos h]

theorem setProt_out (p : Nat → Nat) (base size v x : Nat) (h : x < base ∨ base + size ≤ x) :
    setProt p base size v x = p x := by
  simp only [setProt]
  rw [if_neg (by omega)]

theorem ntProtect_pokNone (st : HookState) (b s p : Nat) :
    ntProtect pokNone st b s p = none := by
  simp [ntProtect, pokNone]

theorem allocPage_osAll (addr : Nat) : _nmd_alloc_page_near osAll addr = addr + 0x1000 := by
  show allocPageGo osAll addr (0x7FFFF + 1) (addr + 0x1000) = addr + 0x1000
  rw [allocPageGo]
  simp [osAll]

theorem findFreeGo_unfold (m : Mem) (sz fuel hd : Nat) (h : 0 < fuel) :
    findFreeGo m sz fuel hd =
      if read16 m hd ≠ 0 ∨ sz > read16 m (hd + 2) then
        if hd % 0x1000 = 0 then 0 else findFreeGo m sz (fuel - 1) (hd + 4 + read16 m (hd + 2))
      else hd := by
  cases fuel with
  | zero => omega
  | succ f => rfl

theorem allocWalk_unfold (os : Nat → Bool) (target ty size fuel : Nat) (st : HookState)
    (page : Nat) (h : 0 < fuel) :
    allocWalk os target ty size fuel st page =
      (let lowBound : Nat := if target ≤ 2 ^ 31 - 0x1000 then 0x1000 else target + 0x1000 - 2 ^ 31
       let hd := if page < target + 2 ^ 31 ∧ lowBound < page then
         _nmd_find_free_hook_data st.mem page size else 0
       if hd ≠ 0 then allocSplit st hd ty size
       else if read64 st.mem page = 0 then
         let p := _nmd_alloc_page_near os target
         let m1 := write64 st.mem page p
         if p ≠ 0 then ({ st with mem := zeroRegion m1 p 0x1000 }, 0)
         else ({ st with mem := allocFreshPageFormat m1 0 ty size }, 12)
       else allocWalk os target ty size (fuel - 1) st (read64 st.mem page)) := by
  cases fuel with
  | zero => omega
  | succ f => rfl

theorem unhookScan_unfold (pok : Nat → Nat → Bool) (target page fuel : Nat) (st : HookState)
    (hd : Nat) (h : 0 < fuel) :
    unhookScan pok target page fuel st hd =
      (let size := read16 st.mem (hd + 2)
       let matched : Bool :=
         (read16 st.mem hd == 1) &&
           (wrapI 64 (((hd : Int) + size + 4) + sint 32 (read32 st.mem (hd + size))) ==
             wrapI 64 ((target : Int) + ((size : Int) - 5)))
       if matched then
         let n := wrapI 64 ((size : Int) - 5)
         match ntProtect pok st target n 0x40 with
         | none => (st, false)
         | some (stp, oldp) =>
           let m1 := copyLoop stp.mem target (hd + 4) n
           let st2 := { stp with mem := m1 }
           let st3 := match ntProtect pok st2 target n oldp with
             | some (s, _) => s
             | none => st2
           let m2 := write16 st3.mem hd 0
           let nxt := hd + 4 + size
           let m3 :=
             if nxt % 0x1000 ≠ 0 ∧ read16 m2 nxt = 0 then
               write16 m2 (hd + 2) (size + 4 + read16 m2 (nxt + 2))
             else m2
           ({ st3 with mem := m3 }, true)
       else
         let hd2 := hd + 4 + size
         if hd2 % 0x1000 = 0 then (st, false)
         else unhookScan pok target page (fuel - 1) st hd2) := by
  cases fuel with
  | zero => omega
  | succ f => rfl

theorem unhookPages_unfold (pok : Nat → Nat → Bool) (target fuel : Nat) (st : HookState)
    (page : Nat) (h : 0 < fuel) :
    unhookPages pok target fuel st page =
      (let r := _nmd_unhook_page pok st target page
       if r.2 then (r.1, true)
       else if read64 r.1.mem page = 0 then (r.1, false)
       else unhookPages pok target (fuel - 1) r.1 (read64 r.1.mem page)) := by
  cases fuel with
  | zero => omega
  | succ f => rfl

theorem hookNumCopy_unfold (m : Mem) (target : Nat) (x64 : Bool) (dfuel fuel acc : Nat)
    (h : 0 < fuel) :
    hookNumCopy m target x64 dfuel fuel acc =
      if acc < 5 then
        match _nmd_mem_ldisasm m (target + acc) x64 dfuel with
        | none => none
        | some len => hookNumCopy m target x64 dfuel (fuel - 1) (acc + len)
      else some acc := by
  cases fuel with
  | zero => omega
  | succ f => rfl

theorem findFreeGo_zeros (m : Mem) (sz b : Nat) (hsz : 0 < sz) (hb : b % 0x1000 = 0) :
    ∀ fuel a, a ≤ b → (b - a) % 4 = 0 → (b - a) / 4 < fuel →
      (∀ x, a ≤ x → x < b + 4 → read8 m x = 0) →
      findFreeGo m sz fuel a = 0 := by
  intro fuel
  induction fuel with
  | zero => intro a _ _ h3 _; omega
  | succ f ih =>
    intro a h1 h2 h3 hz
    rw [findFreeGo_unfold _ _ _ _ (by omega)]
    have hr1 : read16 m a = 0 := by
      unfold read16
      rw [hz a (by omega) (by omega), hz (a + 1) (by omega) (by omega)]
    have hr2 : read16 m (a + 2) = 0 := by
      unfold read16
      rw [hz _ (by omega) (by omega), hz _ (by omega) (by omega)]
    rw [hr1, hr2, if_pos (by omega)]
    by_cases hal : a % 0x1000 = 0
    · rw [if_pos hal]
    · rw [if_neg hal]
      simp only [Nat.add_sub_cancel, Nat.add_zero]
      exact ih (a + 4) (by omega) (by omega) (by omega) (fun x hx1 hx2 => hz x (by omega) hx2)

theorem unhookScan_zeros (pok : Nat → Nat → Bool) (target page b : Nat) (st : HookState)
    (hb : b % 0x1000 = 0) :
    ∀ fuel a, a < b → (b - a) % 4 = 0 → (b - a) / 4 ≤ fuel →
      (∀ x, a ≤ x → x < b → read8 st.mem x = 0) →
      unhookScan pok target page fuel st a = (st, false) := by
  intro fuel
  induction fuel with
  | zero => intro a h1 h2 h3 _; omega
  | succ f ih =>
    intro a h1 h2 h3 hz
    rw [unhookScan_unfold _ _ _ _ _ _ (by omega)]
    have hr1 : read16 st.mem a = 0 := by
      unfold read16
      rw [hz a (by omega) (by omega), hz (a + 1) (by omega) (by omega)]
    have hr2 : read16 st.mem (a + 2) = 0 := by
      unfold read16
      rw [hz _ (by omega) (by omega), hz _ (by omega) (by omega)]
    simp only [hr1, hr2, Nat.reduceBEq, Bool.false_and, Bool.false_eq_true, if_false,
      Nat.add_zero]
    by_cases hal : (a + 4) % 0x1000 = 0
    · rw [if_pos hal]
    · rw [if_neg hal]
      simp only [Nat.add_sub_cancel]
      exact ih (a + 4) (by omega) (by omega) (by omega) (fun x hx1 hx2 => hz x (by omega) hx2)

theorem recordsEndGo_unfold (m : Mem) (page fuel a : Nat) (h : 0 < fuel) :
    recordsEndGo m page fuel a =
      if page + 0x1000 ≤ a then a else recordsEndGo m page (fuel - 1) (a + 4 + read16 m (a + 2)) := by
  cases fuel with
  | zero => omega
  | succ f => rfl

/-- On a memory consisting solely of REX bytes, the prefix loop never exits,
whatever its iteration budget: the byte `0x40` is not a legacy prefix, but in
64-bit mode the REX test keeps the loop alive regardless of the count `i`. -/
theorem nmdPrefixLoop_rex_diverges (a i : Nat) (op66 ad67 rw : Bool) :
    ∀ fuel, nmdPrefixLoop (fun _ => 0x40) true fuel a i op66 ad67 rw = none := by
  intro fuel
  induction fuel generalizing a i op66 ad67 rw with
  | zero => rfl
  | succ f ih =>
    rw [nmdPrefixLoop]
    have hb : read8 (fun _ => 0x40) a = 0x40 := rfl
    rw [hb]
    norm_num [_nmd_mem_find_byte, nmdPrefixTable]
    exact ih _ _ _ _ _

theorem nmdPrefixLoop_unfold (m : Mem) (x64 : Bool) (fuel b i : Nat) (op66 ad67 rw : Bool)
    (h : 0 < fuel) :
    nmdPrefixLoop m x64 fuel b i op66 ad67 rw =
      if (decide (i < 14) && _nmd_mem_find_byte nmdPrefixTable (read8 m b)) ||
          (x64 && decide (read8 m b / 16 = 4)) then
        nmdPrefixLoop m x64 (fuel - 1) (b + 1) (i + 1)
          (op66 || read8 m b == 0x66) (ad67 || read8 m b == 0x67)
          (rw || (read8 m b / 16 == 4 && read8 m b % 16 ≥ 8))
      else some ⟨b, op66, ad67, rw⟩ := by
  cases fuel with
  | zero => omega
  | succ f => rfl

theorem ldisasm_E9 (m : Mem) (a : Nat) (fuel : Nat) (hf : 0 < fuel)
    (hE9 : read8 m a = 0xE9) :
    _nmd_mem_ldisasm m a true fuel = some 5 := by
  unfold _nmd_mem_ldisasm
  rw [nmdPrefixLoop_unfold _ _ _ _ _ _ _ _ hf, hE9]
  norm_num [hE9, _nmd_mem_find_byte, nmdPrefixTable, op1modrm, op1imm8, op1imm32, op2modrm]
  omega

theorem allocPageGo_osNone (addr : Nat) : ∀ fuel ta, allocPageGo osNone addr fuel ta = 0 := by
  intro fuel
  induction fuel with
  | zero => intro ta; rfl
  | succ f ih =>
    intro ta
    rw [allocPageGo]
    simp only [osNone, Bool.false_eq_true, if_false]
    by_cases h : ta ≥ 2 ^ 63 ∨ ta ≥ addr + 2 ^ 31 - 0x1000
    · rw [if_pos h]
    · rw [if_neg h]
      exact ih _

theorem allocPage_osNone (addr : Nat) : _nmd_alloc_page_near osNone addr = 0 :=
  allocPageGo_osNone addr _ _

theorem hook_prot_fail_state (dfuel : Nat) (m0 : Mem) (prot0 : Nat → Nat)
    (target detour n oa : Nat)
    (hdec : hookNumCopy m0 target true dfuel 8 0 = some n) :
    nmd_hook dfuel osAll pokNone ⟨m0, 0, prot0⟩ target detour (some oa) =
      some (⟨write64 (trampFill m0 target n) oa (target + 0x1000 + 12),
        target + 0x1000, prot0⟩, false, none) := by
  have h1 : _nmd_alloc_trampoline osAll ⟨m0, 0, prot0⟩ target n =
      (⟨allocFreshPageFormat (zeroRegion m0 (target + 0x1000) 0x1000) (target + 0x1000) 1 (n + 5),
        target + 0x1000, prot0⟩, target + 0x1000 + 12) := by
    simp (disch := omega) only [_nmd_alloc_trampoline, _nmd_alloc_hook_data_near,
      allocPage_osAll, if_pos, if_neg, if_true, if_false, eq_self_iff_true]
  simp (disch := omega) only [nmd_hook, hdec, h1, ntProtect_pokNone,
    if_pos, if_neg, if_true, if_false, eq_self_iff_true, Bool.false_eq_true]
  rfl

set_option maxRecDepth 40000 in
set_option maxHeartbeats 4000000 in
theorem hook_short_success_state (dfuel : Nat) (m0 : Mem) (prot0 : Nat → Nat)
    (target detour n : Nat)
    (hdec : hookNumCopy m0 target true dfuel 8 0 = some n)
    (hnear : -(2 ^ 31 : Int) ≤ sint 64 (wrapI 64 ((detour : Int) - ((target : Int) + 5))) ∧
      sint 64 (wrapI 64 ((detour : Int) - ((target : Int) + 5))) ≤ 2 ^ 31 - 1) :
    nmd_hook dfuel osAll pokAll ⟨m0, 0, prot0⟩ target detour none =
      some (⟨write32 (write8 (trampFill m0 target n) target 0xE9) (target + 1)
          (wrapI 32 (sint 64 (wrapI 64 ((detour : Int) - ((target : Int) + 5))))),
        target + 0x1000,
        setProt (setProt prot0 target n 0x40) target n (prot0 target)⟩,
        true, some (target, 5)) := by
  have h1 : _nmd_alloc_trampoline osAll ⟨m0, 0, prot0⟩ target n =
      (⟨allocFreshPageFormat (zeroRegion m0 (target + 0x1000) 0x1000) (target + 0x1000) 1 (n + 5),
        target + 0x1000, prot0⟩, target + 0x1000 + 12) := by
    simp (disch := omega) only [_nmd_alloc_trampoline, _nmd_alloc_hook_data_near,
      allocPage_osAll, if_pos, if_neg, if_true, if_false, eq_self_iff_true]
  simp (disch := omega) only [nmd_hook, hdec, h1, ntProtect_pokAll,
    if_pos, if_neg, if_true, if_false, eq_self_iff_true, Bool.false_eq_true]
  rfl

set_option maxRecDepth 40000 in
set_option maxHeartbeats 4000000 in
theorem hook_far_step (dfuel : Nat) (m0 : Mem) (prot0 : Nat → Nat) (target detour n : Nat)
    (org : Option Nat)
    (hdec : hookNumCopy m0 target true dfuel 8 0 = some n)
    (hfar : sint 64 (wrapI 64 ((detour : Int) - ((target : Int) + 5))) > 2 ^ 31 - 1) :
    nmd_hook dfuel osAll pokAll ⟨m0, 0, prot0⟩ target detour org =
      (let sc := _nmd_alloc_absolute_jump osAll
        ⟨(match org with
           | some oa => write64 (trampFill m0 target n) oa (target + 0x1000 + 12)
           | none => trampFill m0 target n),
          target + 0x1000, setProt prot0 target n 0x40⟩ target
       if sc.2 = 0 then some (sc.1, false, none)
       else
         some (⟨write32 (write8 (write16 (write64 (write16 sc.1.mem sc.2 0xB848) (sc.2 + 2) detour)
             (sc.2 + 10) 0xE0FF) target 0xE9) (target + 1)
             (wrapI 32 ((sc.2 : Int) - ((target : Int) + 5))),
           sc.1.first, setProt sc.1.prot target n (prot0 target)⟩,
           true, some (target, 5))) := by
  have h1 : _nmd_alloc_trampoline osAll ⟨m0, 0, prot0⟩ target n =
      (⟨allocFreshPageFormat (zeroRegion m0 (target + 0x1000) 0x1000) (target + 0x1000) 1 (n + 5),
        target + 0x1000, prot0⟩, target + 0x1000 + 12) := by
    simp (disch := omega) only [_nmd_alloc_trampoline, _nmd_alloc_hook_data_near,
      allocPage_osAll, if_pos, if_neg, if_true, if_false, eq_self_iff_true]
  simp (disch := omega) only [nmd_hook, hdec, h1, ntProtect_pokAll,
    if_pos, if_neg, if_true, if_false, eq_self_iff_true, Bool.false_eq_true]
  rfl

theorem trampFill_type (m0 : Mem) (target n : Nat) :
  read16 (trampFill m0 target n) (target + 0x1000 + 8) = 1 := by
  simp only [trampFill]
  rw [read16_write32_ne _ _ _ _ (by omega), read16_write8_ne _ _ _ _ (by omega)]
  by_cases hE9 : read8 (allocFreshPageFormat (zeroRegion m0 (target + 0x1000) 0x1000)
      (target + 0x1000) 1 (n + 5)) target = 0xE9
  · rw [if_pos hE9, read16_write32_ne _ _ _ _ (by omega), read16_write8_ne _ _ _ _ (by omega)]
    simp only [allocFreshPageFormat]
    rw [read16_write16_ne _ _ _ _ (by omega), read16_write16_self]
  · rw [if_neg hE9, read16_copyLoop_out _ _ _ _ _ (by omega)]
    simp only [allocFreshPageFormat]
    rw [read16_write16_ne _ _ _ _ (by omega), read16_write16_self]
theorem trampFill_size (m0 : Mem) (target n : Nat) (hnb : n ≤ 0xF00) :
  read16 (trampFill m0 target n) (target + 0x1000 + 8 + 2) = n + 5 := by
  simp only [trampFill]
  rw [read16_write32_ne _ _ _ _ (by omega), read16_write8_ne _ _ _ _ (by omega)]
  have htail : read16 (allocFreshPageFormat (zeroRegion m0 (target + 0x1000) 0x1000)
      (target + 0x1000) 1 (n + 5)) (target + 0x1000 + 8 + 2) = n + 5 := by
    simp only [allocFreshPageFormat]
    rw [read16_write16_ne _ _ _ _ (by omega), read16_write16_ne _ _ _ _ (by omega),
      read16_write16_self]
    omega
  by_cases hE9 : read8 (allocFreshPageFormat (zeroRegion m0 (target + 0x1000) 0x1000)
      (target + 0x1000) 1 (n + 5)) target = 0xE9
  · rw [if_pos hE9, read16_write32_ne _ _ _ _ (by omega), read16_write8_ne _ _ _ _ (by omega)]
    exact htail
  · rw [if_neg hE9, read16_copyLoop_out _ _ _ _ _ (by omega)]
    exact htail
theorem trampFill_freeType (m0 : Mem) (target n : Nat) (hnb : n ≤ 0xF00) :
  read16 (trampFill m0 target n) (target + 0x1000 + 8 + 4 + (n + 5)) = 0 := by
  simp only [trampFill]
  rw [read16_write32_ne _ _ _ _ (by omega), read16_write8_ne _ _ _ _ (by omega)]
  have htail : read16 (allocFreshPageFormat (zeroRegion m0 (target + 0x1000) 0x1000)
      (target + 0x1000) 1 (n + 5)) (target + 0x1000 + 8 + 4 + (n + 5)) = 0 := by
    simp only [allocFreshPageFormat]
    rw [read16_write16_ne _ _ _ _ (by omega), read16_write16_ne _ _ _ _ (by omega),
      read16_write16_ne _ _ _ _ (by omega), read16_zeroRegion_in _ _ _ _ (by omega)]
  by_cases hE9 : read8 (allocFreshPageFormat (zeroRegion m0 (target + 0x1000) 0x1000)
      (target + 0x1000) 1 (n + 5)) target = 0xE9
  · rw [if_pos hE9, read16_write32_ne _ _ _ _ (by omega), read16_write8_ne _ _ _ _ (by omega)]
    exact htail
  · rw [if_neg hE9, read16_copyLoop_out _ _ _ _ _ (by omega)]
    exact htail
theorem trampFill_freeSize (m0 : Mem) (target n : Nat) (hnb : n ≤ 0xF00) :
  read16 (trampFill m0 target n) (target + 0x1000 + 8 + 4 + (n + 5) + 2) = 4079 - n := by
  simp only [trampFill]
  rw [read16_write32_ne _ _ _ _ (by omega), read16_write8_ne _ _ _ _ (by omega)]
  have htail : read16 (allocFreshPageFormat (zeroRegion m0 (target + 0x1000) 0x1000)
      (target + 0x1000) 1 (n + 5)) (target + 0x1000 + 8 + 4 + (n + 5) + 2) = 4079 - n := by
    simp only [allocFreshPageFormat]
    rw [show target + 0x1000 + 8 + 4 + (n + 5) + 2 = target + 0x1000 + 12 + (n + 5) + 2 from by
      omega, read16_write16_self]
    simp only [wrapI]
    omega
  by_cases hE9 : read8 (allocFreshPageFormat (zeroRegion m0 (target + 0x1000) 0x1000)
      (target + 0x1000) 1 (n + 5)) target = 0xE9
  · rw [if_pos hE9, read16_write32_ne _ _ _ _ (by omega), read16_write8_ne _ _ _ _ (by omega)]
    exact htail
  · rw [if_neg hE9, read16_copyLoop_out _ _ _ _ _ (by omega)]
    exact htail

theorem trampFill_read8_low (m0 : Mem) (target n x : Nat) (hx : x < target + 0x1000) :
    read8 (trampFill m0 target n) x = read8 m0 x := by
  simp only [trampFill]
  rw [read8_write32_ne _ _ _ _ (by omega), read8_write8_ne _ _ _ _ (by omega)]
  by_cases hE9 : read8 (allocFreshPageFormat (zeroRegion m0 (target + 0x1000) 0x1000)
      (target + 0x1000) 1 (n + 5)) target = 0xE9
  · rw [if_pos hE9, read8_write32_ne _ _ _ _ (by omega), read8_write8_ne _ _ _ _ (by omega)]
    simp only [allocFreshPageFormat]
    rw [read8_write16_ne _ _ _ _ (by omega), read8_write16_ne _ _ _ _ (by omega),
      read8_write16_ne _ _ _ _ (by omega), read8_zeroRegion_out _ _ _ _ (by omega)]
  · rw [if_neg hE9, read8_copyLoop_out _ _ _ _ _ (by omega)]
    simp only [allocFreshPageFormat]
    rw [read8_write16_ne _ _ _ _ (by omega), read8_write16_ne _ _ _ _ (by omega),
      read8_write16_ne _ _ _ _ (by omega), read8_zeroRegion_out _ _ _ _ (by omega)]

theorem trampFill_read8_high (m0 : Mem) (target n x : Nat) (hnb : n ≤ 0xF00)
    (hx : target + 0x2000 ≤ x) : read8 (trampFill m0 target n) x = read8 m0 x := by
  simp only [trampFill]
  rw [read8_write32_ne _ _ _ _ (by omega), read8_write8_ne _ _ _ _ (by omega)]
  by_cases hE9 : read8 (allocFreshPageFormat (zeroRegion m0 (target + 0x1000) 0x1000)
      (target + 0x1000) 1 (n + 5)) target = 0xE9
  · rw [if_pos hE9, read8_write32_ne _ _ _ _ (by omega), read8_write8_ne _ _ _ _ (by omega)]
    simp only [allocFreshPageFormat]
    rw [read8_write16_ne _ _ _ _ (by omega), read8_write16_ne _ _ _ _ (by omega),
      read8_write16_ne _ _ _ _ (by omega), read8_zeroRegion_out _ _ _ _ (by omega)]
  · rw [if_neg hE9, read8_copyLoop_out _ _ _ _ _ (by omega)]
    simp only [allocFreshPageFormat]
    rw [read8_write16_ne _ _ _ _ (by omega), read8_write16_ne _ _ _ _ (by omega),
      read8_write16_ne _ _ _ _ (by omega), read8_zeroRegion_out _ _ _ _ (by omega)]

set_option maxRecDepth 40000 in
set_option maxHeartbeats 4000000 in
theorem hook_far_success_state (dfuel : Nat) (m0 : Mem) (prot0 : Nat → Nat)
    (target detour n : Nat)
    (hdec : hookNumCopy m0 target true dfuel 8 0 = some n)
    (hnb : n ≤ 0xF00) (htal : target % 0x1000 = 0) (htlo : 2 ^ 31 ≤ target)
    (hfar : sint 64 (wrapI 64 ((detour : Int) - ((target : Int) + 5))) > 2 ^ 31 - 1) :
    nmd_hook dfuel osAll pokAll ⟨m0, 0, prot0⟩ target detour none =
      some (⟨write32 (write8 (write16 (write64 (write16
          (write16 (write16 (write16 (trampFill m0 target n)
            (target + 0x1000 + 8 + 4 + (n + 5) + 4 + 12 + 2) (4063 - n - 4))
            (target + 0x1000 + 8 + 4 + (n + 5) + 2) 12)
            (target + 0x1000 + 8 + 4 + (n + 5)) 2)
          (target + 0x1000 + 8 + 4 + (n + 5) + 4) 0xB848)
          (target + 0x1000 + 8 + 4 + (n + 5) + 4 + 2) detour)
          (target + 0x1000 + 8 + 4 + (n + 5) + 4 + 10) 0xE0FF)
          target 0xE9) (target + 1)
          (wrapI 32 (((target + 0x1000 + 8 + 4 + (n + 5) + 4 : Nat) : Int) - ((target : Int) + 5))),
        target + 0x1000,
        setProt (setProt prot0 target n 0x40) target n (prot0 target)⟩,
        true, some (target, 5)) := by
  have hfind2 : _nmd_find_free_hook_data (trampFill m0 target n) (target + 0x1000) 12 =
      target + 0x1000 + 8 + 4 + (n + 5) := by
    unfold _nmd_find_free_hook_data
    rw [findFreeGo_unfold _ _ _ _ (by norm_num), trampFill_type m0 target n,
      trampFill_size m0 target n (by omega), if_pos (by omega), if_neg (by omega)]
    rw [findFreeGo_unfold _ _ _ _ (by norm_num), trampFill_freeType m0 target n (by omega),
      trampFill_freeSize m0 target n (by omega), if_neg (by omega)]
  have hrem : (0x1000 - ((target + 0x1000 + 8 + 4 + (n + 5) + 4 + 12) % 0x1000)) % 0x1000 =
      4063 - n := by omega
  have hstub2 : _nmd_alloc_absolute_jump osAll
      ⟨trampFill m0 target n, target + 0x1000, setProt prot0 target n 0x40⟩ target =
      (⟨write16 (write16 (write16 (trampFill m0 target n)
          (target + 0x1000 + 8 + 4 + (n + 5) + 4 + 12 + 2) (4063 - n - 4))
          (target + 0x1000 + 8 + 4 + (n + 5) + 2) 12)
          (target + 0x1000 + 8 + 4 + (n + 5)) 2,
        target + 0x1000, setProt prot0 target n 0x40⟩,
        target + 0x1000 + 8 + 4 + (n + 5) + 4) := by
    simp only [_nmd_alloc_absolute_jump, _nmd_alloc_hook_data_near]
    rw [if_neg (by omega)]
    rw [allocWalk_unfold osAll target 2 12 64 _ (target + 0x1000) (by norm_num)]
    simp (disch := omega) only [hfind2, hrem, allocSplit, if_pos, if_neg, if_true, if_false,
      eq_self_iff_true]
  rw [hook_far_step dfuel m0 prot0 target detour n none hdec hfar]
  simp only [hstub2]
  rw [if_neg (by omega)]

set_option maxRecDepth 40000 in
set_option maxHeartbeats 4000000 in
theorem hook_stub_fail_state (dfuel : Nat) (m0 : Mem) (prot0 : Nat → Nat)
    (target detour n oa : Nat) (hdf : 0 < dfuel)
    (hdec : hookNumCopy m0 target true dfuel 8 0 = some n)
    (hn : 4068 ≤ n) (hnb : n ≤ 4075)
    (htal : target % 0x1000 = 0) (htlo : 2 ^ 31 ≤ target)
    (hzero : ∀ k, k < 0x1004 → m0 (target + 0x2000 + k) = 0)
    (hoa : target + 0x4000 ≤ oa)
    (hfar : sint 64 (wrapI 64 ((detour : Int) - ((target : Int) + 5))) > 2 ^ 31 - 1) :
    nmd_hook dfuel osAll pokAll ⟨m0, 0, prot0⟩ target detour (some oa) =
      some (⟨stubFailMem m0 target n oa, target + 0x1000, setProt prot0 target n 0x40⟩,
        false, none) := by
  by_cases hE9 : read8 m0 target = 0xE9
  · exfalso
    rw [hookNumCopy_unfold _ _ _ _ _ _ (by norm_num), if_pos (by norm_num),
      Nat.add_zero, ldisasm_E9 m0 target dfuel hdf hE9] at hdec
    change hookNumCopy m0 target true dfuel 7 5 = some n at hdec
    rw [hookNumCopy_unfold _ _ _ _ _ _ (by norm_num), if_neg (by norm_num)] at hdec
    simp only [Option.some.injEq] at hdec
    omega
  · have hE9A : ¬ read8 (allocFreshPageFormat (zeroRegion m0 (target + 0x1000) 0x1000)
        (target + 0x1000) 1 (n + 5)) target = 0xE9 := by
      unfold allocFreshPageFormat
      rw [read8_write16_ne _ _ _ _ (by omega), read8_write16_ne _ _ _ _ (by omega),
        read8_write16_ne _ _ _ _ (by omega), read8_zeroRegion_out _ _ _ _ (by omega)]
      exact hE9
    have htf : trampFill m0 target n = write32 (write8 (copyLoop
        (allocFreshPageFormat (zeroRegion m0 (target + 0x1000) 0x1000) (target + 0x1000) 1 (n + 5))
        (target + 0x1000 + 12) target n) (target + 0x1000 + 12 + n) 0xE9)
        (target + 0x1000 + 12 + n + 1)
        (wrapI 32 ((target : Int) + (n : Int) - (((target + 0x1000 + 12 : Nat) : Int) + (n : Int) + 5))) := by
      simp only [trampFill]
      rw [if_neg hE9A]
    have hF1 : read16 (write64 (write32 (write8 (copyLoop
        (allocFreshPageFormat (zeroRegion m0 (target + 4096) 4096) (target + 4096) 1 (n + 5))
        (target + 4096 + 12) target n) (target + 4096 + 12 + n) 0xE9) (target + 4096 + 12 + n + 1)
        (wrapI 32 ((target : Int) + (n : Int) - (((target + 4096 + 12 : Nat) : Int) + (n : Int) + 5))))
        oa (target + 4096 + 12)) (target + 4096 + 8) = 1 := by
      rw [read16_write64_ne _ _ _ _ (by omega), read16_write32_ne _ _ _ _ (by omega),
        read16_write8_ne _ _ _ _ (by omega), read16_copyLoop_out _ _ _ _ _ (by omega)]
      simp only [allocFreshPageFormat]
      rw [read16_write16_ne _ _ _ _ (by omega), read16_write16_self]
    have hF2 : read16 (write64 (write32 (write8 (copyLoop
        (allocFreshPageFormat (zeroRegion m0 (target + 4096) 4096) (target + 4096) 1 (n + 5))
        (target + 4096 + 12) target n) (target + 4096 + 12 + n) 0xE9) (target + 4096 + 12 + n + 1)
        (wrapI 32 ((target : Int) + (n : Int) - (((target + 4096 + 12 : Nat) : Int) + (n : Int) + 5))))
        oa (target + 4096 + 12)) (target + 4096 + 8 + 2) = n + 5 := by
      rw [read16_write64_ne _ _ _ _ (by omega), read16_write32_ne _ _ _ _ (by omega),
        read16_write8_ne _ _ _ _ (by omega), read16_copyLoop_out _ _ _ _ _ (by omega)]
      simp only [allocFreshPageFormat]
      rw [read16_write16_ne _ _ _ _ (by omega), read16_write16_ne _ _ _ _ (by omega),
        show target + 4096 + 8 + 2 = target + 4096 + 8 + 2 from rfl]
      rw [show (target + 4096 + 8 + 2 : Nat) = target + 4096 + 8 + 2 from rfl, read16_write16_self]
      omega
    have hF3 : read16 (write64 (write32 (write8 (copyLoop
        (allocFreshPageFormat (zeroRegion m0 (target + 4096) 4096) (target + 4096) 1 (n + 5))
        (target + 4096 + 12) target n) (target + 4096 + 12 + n) 0xE9) (target + 4096 + 12 + n + 1)
        (wrapI 32 ((target : Int) + (n : Int) - (((target + 4096 + 12 : Nat) : Int) + (n : Int) + 5))))
        oa (target + 4096 + 12)) (target + 4096 + 8 + 4 + (n + 5)) = 0 := by
      rw [read16_write64_ne _ _ _ _ (by omega), read16_write32_ne _ _ _ _ (by omega),
        read16_write8_ne _ _ _ _ (by omega), read16_copyLoop_out _ _ _ _ _ (by omega)]
      simp only [allocFreshPageFormat]
      rw [read16_write16_ne _ _ _ _ (by omega), read16_write16_ne _ _ _ _ (by omega),
        read16_write16_ne _ _ _ _ (by omega), read16_zeroRegion_in _ _ _ _ (by omega)]
    have hF4 : read16 (write64 (write32 (write8 (copyLoop
        (allocFreshPageFormat (zeroRegion m0 (target + 4096) 4096) (target + 4096) 1 (n + 5))
        (target + 4096 + 12) target n) (target + 4096 + 12 + n) 0xE9) (target + 4096 + 12 + n + 1)
        (wrapI 32 ((target : Int) + (n : Int) - (((target + 4096 + 12 : Nat) : Int) + (n : Int) + 5))))
        oa (target + 4096 + 12)) (target + 4096 + 8 + 4 + (n + 5) + 2) = 4079 - n := by
      rw [read16_write64_ne _ _ _ _ (by omega), read16_write32_ne _ _ _ _ (by omega),
        read16_write8_ne _ _ _ _ (by omega), read16_copyLoop_out _ _ _ _ _ (by omega)]
      simp only [allocFreshPageFormat]
      rw [show target + 4096 + 8 + 4 + (n + 5) + 2 = target + 4096 + 12 + (n + 5) + 2 from by omega,
        read16_write16_self]
      simp only [wrapI]
      omega
    have hF5 : ∀ x, target + 8192 ≤ x → x < target + 12292 → read8 (write64 (write32 (write8 (copyLoop
        (allocFreshPageFormat (zeroRegion m0 (target + 4096) 4096) (target + 4096) 1 (n + 5))
        (target + 4096 + 12) target n) (target + 4096 + 12 + n) 0xE9) (target + 4096 + 12 + n + 1)
        (wrapI 32 ((target : Int) + (n : Int) - (((target + 4096 + 12 : Nat) : Int) + (n : Int) + 5))))
        oa (target + 4096 + 12)) x = 0 := by
      intro x hx1 hx2
      rw [read8_write64_ne _ _ _ _ (by omega), read8_write32_ne _ _ _ _ (by omega),
        read8_write8_ne _ _ _ _ (by omega), read8_copyLoop_out _ _ _ _ _ (by omega)]
      simp only [allocFreshPageFormat]
      rw [read8_write16_ne _ _ _ _ (by omega), read8_write16_ne _ _ _ _ (by omega),
        read8_write16_ne _ _ _ _ (by omega), read8_zeroRegion_out _ _ _ _ (by omega)]
      have h0 : m0 x = 0 := by
        have h := hzero (x - (target + 8192)) (by omega)
        rwa [show target + 8192 + (x - (target + 8192)) = x from by omega] at h
      simp only [read8, h0, Nat.zero_mod]
    have hF6 : read64 (write64 (write32 (write8 (copyLoop
        (allocFreshPageFormat (zeroRegion m0 (target + 4096) 4096) (target + 4096) 1 (n + 5))
        (target + 4096 + 12) target n) (target + 4096 + 12 + n) 0xE9) (target + 4096 + 12 + n + 1)
        (wrapI 32 ((target : Int) + (n : Int) - (((target + 4096 + 12 : Nat) : Int) + (n : Int) + 5))))
        oa (target + 4096 + 12)) (target + 4096) = 0 := by
      rw [read64_write64_ne _ _ _ _ (by omega), read64_write32_ne _ _ _ _ (by omega),
        read64_write8_ne _ _ _ _ (by omega), read64_copyLoop_out _ _ _ _ _ (by omega)]
      simp only [allocFreshPageFormat]
      rw [read64_write16_ne _ _ _ _ (by omega), read64_write16_ne _ _ _ _ (by omega),
        read64_write16_ne _ _ _ _ (by omega), read64_zeroRegion_in _ _ _ _ (by omega)]
    have hfind : _nmd_find_free_hook_data (write64 (write32 (write8 (copyLoop
        (allocFreshPageFormat (zeroRegion m0 (target + 4096) 4096) (target + 4096) 1 (n + 5))
        (target + 4096 + 12) target n) (target + 4096 + 12 + n) 0xE9) (target + 4096 + 12 + n + 1)
        (wrapI 32 ((target : Int) + (n : Int) - (((target + 4096 + 12 : Nat) : Int) + (n : Int) + 5))))
        oa (target + 4096 + 12)) (target + 4096) 12 = 0 := by
      unfold _nmd_find_free_hook_data
      rw [findFreeGo_unfold _ _ _ _ (by norm_num), hF1, hF2, if_pos (by omega), if_neg (by omega)]
      rw [findFreeGo_unfold _ _ _ _ (by norm_num), hF3, hF4, if_pos (by omega), if_neg (by omega)]
      exact findFreeGo_zeros _ 12 (target + 12288) (by omega) (by omega) _
        (target + 4096 + 8 + 4 + (n + 5) + 4 + (4079 - n)) (by omega) (by omega) (by omega)
        (fun x h1x h2x => hF5 x (by omega) (by omega))
    have hstub : _nmd_alloc_absolute_jump osAll
        { mem := write64 (write32 (write8 (copyLoop
            (allocFreshPageFormat (zeroRegion m0 (target + 4096) 4096) (target + 4096) 1 (n + 5))
            (target + 4096 + 12) target n) (target + 4096 + 12 + n) 0xE9) (target + 4096 + 12 + n + 1)
            (wrapI 32 ((target : Int) + (n : Int) - (((target + 4096 + 12 : Nat) : Int) + (n : Int) + 5))))
            oa (target + 4096 + 12),
          first := target + 4096, prot := setProt prot0 target n 64 } target =
        ({ mem := zeroRegion (write64 (write64 (write32 (write8 (copyLoop
            (allocFreshPageFormat (zeroRegion m0 (target + 4096) 4096) (target + 4096) 1 (n + 5))
            (target + 4096 + 12) target n) (target + 4096 + 12 + n) 0xE9) (target + 4096 + 12 + n + 1)
            (wrapI 32 ((target : Int) + (n : Int) - (((target + 4096 + 12 : Nat) : Int) + (n : Int) + 5))))
            oa (target + 4096 + 12)) (target + 4096) (target + 4096)) (target + 4096) 4096,
           first := target + 4096, prot := setProt prot0 target n 64 }, 0) := by
      simp only [_nmd_alloc_absolute_jump, _nmd_alloc_hook_data_near]
      rw [if_neg (by omega)]
      rw [allocWalk_unfold osAll target 2 12 64 _ (target + 4096) (by norm_num)]
      simp (disch := omega) only [hfind, hF6, allocPage_osAll, if_pos, if_neg, if_true, if_false,
        eq_self_iff_true]
    rw [hook_far_step dfuel m0 prot0 target detour n (some oa) hdec hfar]
    simp only [htf, hstub, eq_self_iff_true, if_true, if_pos]
    rfl

theorem nmdPrefixLoop_rex_run (m : Mem) :
    ∀ fuel j b i, j < fuel → (∀ k, k < j → read8 m (b + k) = 0x40) → read8 m (b + j) = 0x90 →
      nmdPrefixLoop m true fuel b i false false false = some ⟨b + j, false, false, false⟩ := by
  intro fuel
  induction fuel with
  | zero => intro j b i hj _ _; omega
  | succ f ih =>
    intro j b i hj hb ht
    rw [nmdPrefixLoop_unfold _ _ _ _ _ _ _ _ (by omega)]
    cases j with
    | zero =>
      rw [Nat.add_zero] at ht
      rw [ht]
      norm_num [_nmd_mem_find_byte, nmdPrefixTable]
    | succ jj =>
      have h0 : read8 m (b + 0) = 0x40 := hb 0 (by omega)
      rw [Nat.add_zero] at h0
      rw [h0]
      norm_num [_nmd_mem_find_byte, nmdPrefixTable]
      have hrec := ih jj (b + 1) (i + 1) (by omega)
        (fun k hk => by
          have hx := hb (k + 1) (by omega)
          rwa [show b + (k + 1) = b + 1 + k from by omega] at hx)
        (by rwa [show b + 1 + jj = b + (jj + 1) from by omega])
      rw [show b + 1 + jj = b + (jj + 1) from by omega] at hrec
      exact hrec

theorem c9b_ldisasm : _nmd_mem_ldisasm c9bMem 0x80000000 true 0x2000 = some 4069 := by
  have hb : ∀ k, k < 4068 → read8 c9bMem (0x80000000 + k) = 0x40 := by
    intro k hk
    simp only [read8, c9bMem]
    rw [if_pos (by omega)]
  have ht : read8 c9bMem (0x80000000 + 4068) = 0x90 := by
    norm_num [read8, c9bMem]
  have ht2 : read8 c9bMem 0x80000FE4 = 0x90 := by decide
  unfold _nmd_mem_ldisasm
  rw [nmdPrefixLoop_rex_run c9bMem 0x2000 4068 0x80000000 0 (by norm_num) hb ht]
  norm_num [ht2, _nmd_mem_find_byte, op1modrm, op1imm8, op1imm32]

theorem c9b_hdec : hookNumCopy c9bMem 0x80000000 true 0x2000 8 0 = some 4069 := by
  rw [hookNumCopy_unfold _ _ _ _ _ _ (by norm_num), if_pos (by norm_num), Nat.add_zero, c9b_ldisasm]
  change hookNumCopy c9bMem 0x80000000 true 8192 7 4069 = some 4069
  rw [hookNumCopy_unfold _ _ _ _ _ _ (by norm_num), if_neg (by norm_num)]

theorem c9b_hzero : ∀ k, k < 0x1004 → c9bMem (0x80000000 + 0x2000 + k) = 0 := by
  intro k hk
  simp only [c9bMem]
  rw [if_neg (by omega), if_neg (by omega)]

theorem c9b_hfar : sint 64 (wrapI 64 ((0x100010000 : Int) - ((0x80000000 : Int) + 5))) > 2 ^ 31 - 1 := by
  decide


theorem jumpDest_mod (a d : Nat) :
    jumpDest a d % 2 ^ 32 = (((a : Int) + 5 + sint 32 d) % 2 ^ 32).toNat := by
  simp only [jumpDest, wrapI]
  omega

theorem jumpDest_wrapI32 (a : Nat) (z : Int) :
    jumpDest a (wrapI 32 z) % 2 ^ 32 = (((a : Int) + 5 + z) % 2 ^ 32).toNat := by
  simp only [jumpDest, wrapI, sint]
  split_ifs <;> omega

theorem format_read32_low (m0 : Mem) (target n x : Nat) (hx : x + 4 ≤ target + 0x1000) :
    read32 (allocFreshPageFormat (zeroRegion m0 (target + 0x1000) 0x1000)
      (target + 0x1000) 1 (n + 5)) x = read32 m0 x := by
  simp only [allocFreshPageFormat]
  rw [read32_write16_ne _ _ _ _ (by omega), read32_write16_ne _ _ _ _ (by omega),
    read32_write16_ne _ _ _ _ (by omega), read32_zeroRegion_out _ _ _ _ (by omega)]

theorem sint32_wrapI32 (z : Int) (h1 : -(2 ^ 31) ≤ z) (h2 : z < 2 ^ 31) :
    sint 32 (wrapI 32 z) = z := by
  simp only [sint, wrapI]
  split_ifs with h <;> omega

theorem trampFill_copy (m0 : Mem) (target n k : Nat) (hnb : n ≤ 0xF00) (hk : k < n)
    (hE9 : ¬ read8 m0 target = 0xE9) :
    read8 (trampFill m0 target n) (target + 0x1000 + 12 + k) = read8 m0 (target + k) := by
  have hE9A : ¬ read8 (allocFreshPageFormat (zeroRegion m0 (target + 0x1000) 0x1000)
      (target + 0x1000) 1 (n + 5)) target = 0xE9 := by
    simp only [allocFreshPageFormat]
    rw [read8_write16_ne _ _ _ _ (by omega), read8_write16_ne _ _ _ _ (by omega),
      read8_write16_ne _ _ _ _ (by omega), read8_zeroRegion_out _ _ _ _ (by omega)]
    exact hE9
  simp only [trampFill]
  rw [read8_write32_ne _ _ _ _ (by omega), read8_write8_ne _ _ _ _ (by omega), if_neg hE9A,
    read8_copyLoop_in _ _ _ _ _ (by omega) hk]
  simp only [allocFreshPageFormat]
  rw [read8_write16_ne _ _ _ _ (by omega), read8_write16_ne _ _ _ _ (by omega),
    read8_write16_ne _ _ _ _ (by omega), read8_zeroRegion_out _ _ _ _ (by omega)]

theorem trampFill_read64_page0 (m0 : Mem) (target n : Nat) :
    read64 (trampFill m0 target n) (target + 0x1000) = 0 := by
  simp only [trampFill]
  rw [read64_write32_ne _ _ _ _ (by omega), read64_write8_ne _ _ _ _ (by omega)]
  have htail : read64 (allocFreshPageFormat (zeroRegion m0 (target + 0x1000) 0x1000)
      (target + 0x1000) 1 (n + 5)) (target + 0x1000) = 0 := by
    simp only [allocFreshPageFormat]
    rw [read64_write16_ne _ _ _ _ (by omega), read64_write16_ne _ _ _ _ (by omega),
      read64_write16_ne _ _ _ _ (by omega), read64_zeroRegion_in _ _ _ _ (by omega)]
  by_cases hE9 : read8 (allocFreshPageFormat (zeroRegion m0 (target + 0x1000) 0x1000)
      (target + 0x1000) 1 (n + 5)) target = 0xE9
  · rw [if_pos hE9, read64_write32_ne _ _ _ _ (by omega), read64_write8_ne _ _ _ _ (by omega)]
    exact htail
  · rw [if_neg hE9, read64_copyLoop_out _ _ _ _ _ (by omega)]
    exact htail

theorem hookedMem_type (m0 : Mem) (target n W : Nat) :
    read16 (write32 (write8 (trampFill m0 target n) target 0xE9) (target + 1) W)
      (target + 0x1000 + 8) = 1 := by
  rw [read16_write32_ne _ _ _ _ (by omega), read16_write8_ne _ _ _ _ (by omega), trampFill_type]

theorem hookedMem_size (m0 : Mem) (target n W : Nat) (hnb : n ≤ 0xF00) :
    read16 (write32 (write8 (trampFill m0 target n) target 0xE9) (target + 1) W)
      (target + 0x1000 + 8 + 2) = n + 5 := by
  rw [read16_write32_ne _ _ _ _ (by omega), read16_write8_ne _ _ _ _ (by omega),
    trampFill_size m0 target n hnb]

theorem hookedMem_disp (m0 : Mem) (target n W : Nat) :
    sint 32 (read32 (write32 (write8 (trampFill m0 target n) target 0xE9) (target + 1) W)
      (target + 0x1000 + 8 + (n + 5))) = -4113 := by
  rw [show target + 0x1000 + 8 + (n + 5) = target + 0x1000 + 12 + n + 1 from by omega,
    read32_write32_ne _ _ _ _ (by omega), read32_write8_ne _ _ _ _ (by omega)]
  simp only [trampFill]
  rw [read32_write32_self, Nat.mod_eq_of_lt (wrapI32_lt _), sint32_wrapI32]
  · push_cast
    omega
  · push_cast
    omega
  · push_cast
    omega

theorem hookedMem_freeType (m0 : Mem) (target n W : Nat) (hnb : n ≤ 0xF00) :
    read16 (write32 (write8 (trampFill m0 target n) target 0xE9) (target + 1) W)
      (target + 0x1000 + 8 + 4 + (n + 5)) = 0 := by
  rw [read16_write32_ne _ _ _ _ (by omega), read16_write8_ne _ _ _ _ (by omega),
    trampFill_freeType m0 target n hnb]

theorem hookedMem_freeSize (m0 : Mem) (target n W : Nat) (hnb : n ≤ 0xF00) :
    read16 (write32 (write8 (trampFill m0 target n) target 0xE9) (target + 1) W)
      (target + 0x1000 + 8 + 4 + (n + 5) + 2) = 4079 - n := by
  rw [read16_write32_ne _ _ _ _ (by omega), read16_write8_ne _ _ _ _ (by omega),
    trampFill_freeSize m0 target n hnb]

theorem hookedMem_copy (m0 : Mem) (target n W k : Nat) (hnb : n ≤ 0xF00) (hk : k < n)
    (hE9 : ¬ read8 m0 target = 0xE9) :
    read8 (write32 (write8 (trampFill m0 target n) target 0xE9) (target + 1) W)
      (target + 0x1000 + 8 + 4 + k) = read8 m0 (target + k) := by
  rw [show target + 0x1000 + 8 + 4 + k = target + 0x1000 + 12 + k from by omega,
    read8_write32_ne _ _ _ _ (by omega), read8_write8_ne _ _ _ _ (by omega),
    trampFill_copy m0 target n k hnb hk hE9]

theorem unhook_match_first (M : Mem) (P0 : Nat → Nat) (target n : Nat)
    (hnb : n ≤ 0xF00) (htal : target % 0x1000 = 0)
    (a1 : read16 M (target + 0x1000 + 8) = 1)
    (a2 : read16 M (target + 0x1000 + 8 + 2) = n + 5)
    (a4 : sint 32 (read32 M (target + 0x1000 + 8 + (n + 5))) = -4113)
    (a5 : read16 M (target + 0x1000 + 8 + 4 + (n + 5)) = 0)
    (a6 : read16 M (target + 0x1000 + 8 + 4 + (n + 5) + 2) = 4079 - n) :
    nmd_unhook pokAll ⟨M, target + 0x1000, P0⟩ target =
      (⟨write16 (write16 (copyLoop M target (target + 0x1000 + 8 + 4) n) (target + 0x1000 + 8) 0)
          (target + 0x1000 + 8 + 2) (n + 5 + 4 + (4079 - n)),
        target + 0x1000,
        setProt (setProt P0 target n 0x40) target n (P0 target)⟩, true) := by
  have hwn : wrapI 64 (((n + 5 : Nat) : Int) - 5) = n := by
    simp only [wrapI]
    omega
  have hweq : (wrapI 64 ((((target + 0x1000 + 8 : Nat) : Int) + ((n + 5 : Nat) : Int) + 4) +
      -4113) == wrapI 64 ((target : Int) + (((n + 5 : Nat) : Int) - 5))) = true := by
    have heq : (((target + 0x1000 + 8 : Nat) : Int) + ((n + 5 : Nat) : Int) + 4) + -4113 =
        (target : Int) + (((n + 5 : Nat) : Int) - 5) := by
      push_cast
      ring
    rw [heq]
    exact beq_self_eq_true _
  have b5 : read16 (write16 (copyLoop M target (target + 0x1000 + 8 + 4) n)
      (target + 0x1000 + 8) 0) (target + 0x1000 + 8 + 4 + (n + 5)) = 0 := by
    rw [read16_write16_ne _ _ _ _ (by omega), read16_copyLoop_out _ _ _ _ _ (by omega), a5]
  have b6 : read16 (write16 (copyLoop M target (target + 0x1000 + 8 + 4) n)
      (target + 0x1000 + 8) 0) (target + 0x1000 + 8 + 4 + (n + 5) + 2) = 4079 - n := by
    rw [read16_write16_ne _ _ _ _ (by omega), read16_copyLoop_out _ _ _ _ _ (by omega), a6]
  unfold nmd_unhook
  rw [show ((⟨M, target + 0x1000, P0⟩ : HookState)).first = target + 0x1000 from rfl,
    if_neg (by omega)]
  rw [unhookPages_unfold pokAll target 64 _ (target + 0x1000) (by norm_num)]
  simp only [_nmd_unhook_page]
  rw [unhookScan_unfold pokAll target (target + 0x1000) 0x1000 _ (target + 0x1000 + 8)
    (by norm_num)]
  simp (disch := omega) only [a1, a2, a4, hwn, hweq, b5, b6, ntProtect_pokAll,
    Nat.reduceBEq, Bool.true_and, Bool.and_self, beq_self_eq_true,
    eq_self_iff_true, and_true, true_and, ne_eq,
    if_pos, if_neg, if_true, if_false]

theorem unhook_second_fails (M2 : Mem) (P0 : Nat → Nat) (target n : Nat)
    (hnb : n ≤ 0xF00) (htal : target % 0x1000 = 0)
    (c1 : read16 M2 (target + 0x1000 + 8) = 0)
    (c2 : read16 M2 (target + 0x1000 + 8 + 2) = n + 5 + 4 + (4079 - n))
    (c3 : ∀ x, target + 0x2004 ≤ x → x < target + 0x3000 → read8 M2 x = 0)
    (c4 : read64 M2 (target + 0x1000) = 0) :
    nmd_unhook pokAll ⟨M2, target + 0x1000, P0⟩ target =
      (⟨M2, target + 0x1000, P0⟩, false) := by
  have hadv : target + 0x1000 + 8 + 4 + (n + 5 + 4 + (4079 - n)) = target + 0x2004 := by
    omega
  unfold nmd_unhook
  rw [show ((⟨M2, target + 0x1000, P0⟩ : HookState)).first = target + 0x1000 from rfl,
    if_neg (by omega)]
  rw [unhookPages_unfold pokAll target 64 _ (target + 0x1000) (by norm_num)]
  simp only [_nmd_unhook_page]
  rw [unhookScan_unfold pokAll target (target + 0x1000) 0x1000 _ (target + 0x1000 + 8)
    (by norm_num)]
  simp (disch := omega) only [c1, c2, hadv, Nat.reduceBEq, Nat.reduceSub,
    Bool.false_and, Bool.false_eq_true, eq_self_iff_true, and_true, ne_eq,
    if_pos, if_neg, if_true, if_false]
  rw [unhookScan_zeros pokAll target (target + 0x1000) (target + 0x3000) _ (by omega)
    4095 (target + 0x2004) (by omega) (by omega) (by omega)
    (fun x h1x h2x => c3 x (by omega) (by omega))]
  simp only [c4, Nat.reduceBEq, eq_self_iff_true, if_true, if_pos, if_neg, if_false,
    Bool.false_eq_true]

/-! ## Claim theorems, counterexamples and witnesses -/

/-- Claim C7: for every input byte sequence and both addressing-width modes,
the instruction-length decoder terminates (always succeeds) and returns a byte
count of at least 1.  This fails on the code: in 64-bit mode, on a memory all
of whose bytes are `0x40` (a REX prefix), `_nmd_mem_ldisasm` never finishes —
the C loop condition `i < 14 && find_byte(prefixes, *b) || (x86_64_mode ? (*b
>> 4 == 4) : false)` lets REX bytes escape the 14-iteration bound, so the
fuelled model returns `none` for every fuel. -/
theorem C7_decoder_nonterminating :
    ∀ fuel a, _nmd_mem_ldisasm (fun _ => 0x40) a true fuel = none := by
  intro fuel a
  unfold _nmd_mem_ldisasm
  rw [nmdPrefixLoop_rex_diverges]

/-- Claim C4: the claim says the allocator obtains a new page from the OS when
no in-reach page has room, formats it, and returns a non-null record, failing
only when the OS cannot provide a page.  The code inverts the success test on
the subsequent-page path (`if ((hook_page->next = _nmd_alloc_page_near(target)))
return 0;`): with one full in-reach page in the list and an OS that grants
every allocation, the allocator returns the null pointer even though
`_nmd_alloc_page_near` returns a fresh page; with an OS that denies, it
instead formats the null page and returns the garbage pointer 12. -/
theorem C4_alloc_inverted_eval :
    (_nmd_alloc_hook_data_near osAll fullPageSt 0x300000 1 10).2 = 0 ∧
      _nmd_alloc_page_near osAll 0x300000 = 0x301000 ∧
      (_nmd_alloc_hook_data_near osNone fullPageSt (2 ^ 63) 1 10).2 = 12 := by
  refine ⟨by decide, by decide, by decide⟩

/-- Claim C3: the record invariant (records pack the page contiguously and the
last record ends exactly at the page end) is already broken by the very first
hook: the fresh-page format writes the trailing free record's size as
`0x1000 - (8 + 4 + size)`, omitting that record's own 4-byte header, so the
record walk of the page at `0x11000` first passes the page end at
`0x11000 + 0x1004`, 4 bytes past it, even though the hook itself succeeded. -/
theorem C3_invariant_broken_eval :
    nopHookOk = true ∧ recordsEnd nopHookedSt.mem 0x11000 = 0x12004 ∧
      recordsTile nopHookedSt.mem 0x11000 = false := by
  refine ⟨by decide, by decide, by decide⟩

/-- Claim C1, counterexample: the target at `0x100000000` starts with the near
jump `E9 00 00 00 80`.  `nmd_hook` succeeds and `nmd_unhook` reports success,
but the restored bytes are the trampoline's re-emitted jump — opcode `0xE9`
with displacement `0x7FFFEFF4` relative to the trampoline — not the original
displacement `0x80000000`, so the round trip is not byte-for-byte. -/
theorem C1_counterexample :
    e9HookOk = true ∧ e9RoundOk = true ∧
      read8 e9RoundSt.mem 0x100000000 = 0xE9 ∧
      read32 e9RoundSt.mem 0x100000001 = 0x7FFFEFF4 ∧
      read32 e9St.mem 0x100000001 = 0x80000000 := by
  refine ⟨by decide, by decide, by decide, by decide, by decide⟩

/-- Claim C2, counterexample: hooking the five-nop target when the protection
change is denied makes `nmd_hook` return `false`, but the trampoline record
it had built in the hook page is not freed: the record at `0x11008` still has
type 1 (TRAMPOLINE) and size 10 in the failure state. -/
theorem C2_counterexample :
    nopProtFailOk = false ∧ read16 nopProtFailSt.mem 0x11008 = 1 ∧
      read16 nopProtFailSt.mem 0x1100A = 10 := by
  refine ⟨by decide, by decide, by decide⟩

/-- Claim C6, counterexample: for the jump-leading target at `0x100000000`
(original displacement `-2^31`), the re-emitted trampoline jump's absolute
destination is `0x180000005`, while the original jump's destination is
`0x80000005`: they differ by `2^32` because the relocated displacement does
not fit in a signed 32-bit value and is truncated. -/
theorem C6_counterexample :
    e9HookOk = true ∧
      jumpDest 0x10000100C (read32 e9HookedSt.mem 0x10000100D) = 0x180000005 ∧
      jumpDest 0x100000000 (read32 e9Mem 0x100000001) = 0x80000005 ∧
      (0x180000005 : Nat) ≠ 0x80000005 := by
  refine ⟨by decide, by decide, by decide, by decide⟩

/-- Evaluation of the record-B unhook of the reuse scenario: the record is
found, the ten saved bytes are copied back, the record becomes Free and
absorbs the following free record (size `15 + 4 + 4051 = 4070`). -/
theorem c8un_eval :
    c8un =
      ({ mem := write16 (write16 (copyLoop c8mem 0x10100 0x1101A 10) 0x11016 0) 0x11018 4070,
         first := 0x11000,
         prot := setProt (setProt (fun _ => 0x20) 0x10100 10 0x40) 0x10100 10 0x20 }, true) := by
  have hm1 : c8St.mem = c8mem := rfl
  have hf1 : c8St.first = 0x11000 := rfl
  have hp1 : c8St.prot = fun _ => 0x20 := rfl
  have ha1 : read16 c8mem 0x11008 = 0 := by decide
  have ha2 : read16 c8mem 0x1100A = 10 := by decide
  have ha3 : read16 c8mem 0x11016 = 1 := by decide
  have ha4 : read16 c8mem 0x11018 = 15 := by decide
  have hs : sint 32 (read32 c8mem 69669) = -3871 := by decide
  have hwrap : wrapI 64 (65802 : Int) = 65802 := by decide
  have hw10 : wrapI 64 (10 : Int) = 10 := by decide
  have hmg : read16 (write16 (copyLoop c8mem 0x10100 0x1101A 10) 0x11016 0) 0x11029 = 0 := by
    rw [read16_write16_ne _ _ _ _ (by omega), read16_copyLoop_out _ _ _ _ _ (by omega)]
    decide
  have hmg2 : read16 (write16 (copyLoop c8mem 0x10100 0x1101A 10) 0x11016 0) 0x1102B = 4051 := by
    rw [read16_write16_ne _ _ _ _ (by omega), read16_copyLoop_out _ _ _ _ _ (by omega)]
    decide
  unfold c8un nmd_unhook
  rw [hf1]
  rw [if_neg (by norm_num)]
  rw [unhookPages_unfold pokAll 0x10100 64 c8St 0x11000 (by norm_num)]
  simp only [_nmd_unhook_page]
  rw [unhookScan_unfold pokAll 0x10100 0x11000 0x1000 c8St (0x11000 + 8) (by norm_num)]
  simp (disch := omega) only [hm1, hp1, ha1, ha2, Nat.reduceAdd, Nat.reduceSub, Nat.reduceMod,
    Nat.reduceBEq, Bool.false_and, Bool.and_self, Bool.false_eq_true, eq_self_iff_true,
    if_pos, if_neg, if_true, if_false]
  rw [unhookScan_unfold pokAll 0x10100 0x11000 4095 c8St 69654 (by norm_num)]
  simp (disch := omega) only [hm1, hp1, ha3, ha4, hs, hwrap, hw10, ntProtect_pokAll, hmg, hmg2,
    Nat.cast_ofNat, Int.reduceAdd, Int.reduceSub, Int.reduceNeg,
    Nat.reduceAdd, Nat.reduceSub, Nat.reduceMod, Nat.reduceBEq,
    Bool.false_and, Bool.and_self, Bool.false_eq_true, eq_self_iff_true,
    if_pos, if_neg, if_true, if_false]
  simp (disch := omega) only [hf1, and_true, ne_eq, if_pos, if_neg, if_true, if_false,
    Nat.reduceBEq, eq_self_iff_true]



set_option maxHeartbeats 1000000 in
/-- Claim C8, counterexample: the page holds record A (Free, size 10, payload
`0x1100C`) before record B (TRAMPOLINE, size 15, payload `0x1101A`).
Unhooking `0x10100` frees B and merges it with the following free record,
writing size `15 + 4 + 4051 = 4070` — the summed sizes plus the absorbed
header.  The next request, of size 10 — no larger than the just-freed B —
returns A's memory `0x1100C`, not B's `0x1101A`: the allocator is first-fit
over the whole page, not the freed record, so "returns the same memory" is
false (the page list indeed does not grow: `first` is unchanged and the
page's `next` pointer stays null). -/
theorem C8_counterexample :
    c8unOk = true ∧ read16 c8unSt.mem 0x11016 = 0 ∧ read16 c8unSt.mem 0x11018 = 4070 ∧
      (∃ st', c8hk = some (st', true, some (0x10200, 5)) ∧
        read64 st'.mem 0x30000 = 0x1100C ∧ st'.first = 0x11000 ∧
        read64 st'.mem 0x11000 = 0) ∧
      (0x1100C : Nat) ≠ 0x1101A := by
  have hst : c8unSt =
      { mem := write16 (write16 (copyLoop c8mem 0x10100 0x1101A 10) 0x11016 0) 0x11018 4070,
        first := 0x11000,
        prot := setProt (setProt (fun _ => 0x20) 0x10100 10 0x40) 0x10100 10 0x20 } := by
    simp only [c8unSt, c8un_eval]
  have hok : c8unOk = true := by simp only [c8unOk, c8un_eval]
  have ld0 : _nmd_mem_ldisasm
      (write16 (write16 (copyLoop c8mem 0x10100 0x1101A 10) 0x11016 0) 0x11018 4070)
      66048 true 64 = some 1 := by decide
  have ld1 : _nmd_mem_ldisasm
      (write16 (write16 (copyLoop c8mem 0x10100 0x1101A 10) 0x11016 0) 0x11018 4070)
      66049 true 64 = some 1 := by decide
  have ld2 : _nmd_mem_ldisasm
      (write16 (write16 (copyLoop c8mem 0x10100 0x1101A 10) 0x11016 0) 0x11018 4070)
      66050 true 64 = some 1 := by decide
  have ld3 : _nmd_mem_ldisasm
      (write16 (write16 (copyLoop c8mem 0x10100 0x1101A 10) 0x11016 0) 0x11018 4070)
      66051 true 64 = some 1 := by decide
  have ld4 : _nmd_mem_ldisasm
      (write16 (write16 (copyLoop c8mem 0x10100 0x1101A 10) 0x11016 0) 0x11018 4070)
      66052 true 64 = some 1 := by decide
  have gdec : hookNumCopy
      (write16 (write16 (copyLoop c8mem 0x10100 0x1101A 10) 0x11016 0) 0x11018 4070)
      0x10200 true 0x40 8 0 = some 5 := by
    rw [hookNumCopy_unfold _ _ _ _ _ _ (by norm_num), if_pos (by norm_num)]
    simp only [Nat.reduceAdd, Nat.reduceSub, ld0]
    rw [hookNumCopy_unfold _ _ _ _ _ _ (by norm_num), if_pos (by norm_num)]
    simp only [Nat.reduceAdd, Nat.reduceSub, ld1]
    rw [hookNumCopy_unfold _ _ _ _ _ _ (by norm_num), if_pos (by norm_num)]
    simp only [Nat.reduceAdd, Nat.reduceSub, ld2]
    rw [hookNumCopy_unfold _ _ _ _ _ _ (by norm_num), if_pos (by norm_num)]
    simp only [Nat.reduceAdd, Nat.reduceSub, ld3]
    rw [hookNumCopy_unfold _ _ _ _ _ _ (by norm_num), if_pos (by norm_num)]
    simp only [Nat.reduceAdd, Nat.reduceSub, ld4]
    rw [hookNumCopy_unfold _ _ _ _ _ _ (by norm_num), if_neg (by norm_num)]
  have gt0 : read16
      (write16 (write16 (copyLoop c8mem 0x10100 0x1101A 10) 0x11016 0) 0x11018 4070)
      0x11008 = 0 := by decide
  have gs0 : read16
      (write16 (write16 (copyLoop c8mem 0x10100 0x1101A 10) 0x11016 0) 0x11018 4070)
      0x1100A = 10 := by decide
  have gnext : read64
      (write16 (write16 (copyLoop c8mem 0x10100 0x1101A 10) 0x11016 0) 0x11018 4070)
      0x11000 = 0 := by decide
  have ge9 : read8
      (write16 (write16 (copyLoop c8mem 0x10100 0x1101A 10) 0x11016 0) 0x11018 4070)
      0x10200 = 0x90 := by decide
  have hdelta : sint 64 (wrapI 64 (65531 : Int)) = 65531 := by decide
  refine ⟨hok, ?_, ?_, ?_, by norm_num⟩
  · rw [hst]
    decide
  · rw [hst]
    decide
  · show ∃ st', nmd_hook 0x40 osAll pokAll c8unSt 0x10200 0x20200 (some 0x30000) =
      some (st', true, some (0x10200, 5)) ∧ read64 st'.mem 0x30000 = 0x1100C ∧
      st'.first = 0x11000 ∧ read64 st'.mem 0x11000 = 0
    rw [hst]
    have hff : _nmd_find_free_hook_data
        (write16 (write16 (copyLoop c8mem 0x10100 0x1101A 10) 0x11016 0) 0x11018 4070)
        0x11000 10 = 0x11008 := by
      unfold _nmd_find_free_hook_data
      rw [findFreeGo_unfold _ _ _ _ (by norm_num)]
      norm_num [gt0, gs0]
    simp (disch := omega) only [nmd_hook, gdec, _nmd_alloc_trampoline, _nmd_alloc_hook_data_near,
      allocWalk_unfold osAll 0x10200 1 10 64 _ 0x11000 (by norm_num), hff, allocSplit,
      ntProtect_pokAll, ge9, hdelta,
      Nat.cast_ofNat, Int.reduceAdd, Int.reduceSub, Int.reduceNeg, Int.reducePow,
      Nat.reduceAdd, Nat.reduceSub, Nat.reduceMod, Nat.reduceBEq,
      Bool.false_and, Bool.and_self, Bool.false_eq_true, eq_self_iff_true, and_true, ne_eq,
      read8_write8_ne, read8_write16_ne, read8_write32_ne, read8_write64_ne, read8_copyLoop_out,
      if_pos, if_neg, if_true, if_false]
    refine ⟨_, rfl, ?_, rfl, ?_⟩
    · rw [read64_write32_ne _ _ _ _ (by omega), read64_write8_ne _ _ _ _ (by omega),
        read64_write64_self]
    · simp (disch := omega) only [read64_write8_ne, read64_write16_ne, read64_write32_ne,
        read64_write64_ne, read64_copyLoop_out]
      decide


/-- Claim C9: when the out-parameter `original` is non-null, `nmd_hook` stores
the trampoline address through it before attempting the protection change, so
`*original` has already been overwritten on both failure paths that come after
trampoline construction, even though the hook reports failure.  Part 1: when
`NtProtectVirtualMemory` denies the change, the hook returns `false` with no
flush, yet the 8 bytes at `oa` hold the trampoline payload address
`target + 0x100C`.  Part 2: when the protection change succeeds but the
absolute-jump-stub allocation then fails (far detour; the fresh page's free
record is too small and the subsequent-page branch returns null by the
inverted test), the hook again returns `false` with `*original` already
overwritten. -/
theorem C9_original_overwritten :
    (∀ (dfuel : Nat) (m0 : Mem) (prot0 : Nat → Nat) (target detour n oa : Nat),
      hookNumCopy m0 target true dfuel 8 0 = some n → target < 2 ^ 60 →
      ∃ st', nmd_hook dfuel osAll pokNone ⟨m0, 0, prot0⟩ target detour (some oa) =
          some (st', false, none) ∧ read64 st'.mem oa = target + 0x100C) ∧
    (∀ (dfuel : Nat) (m0 : Mem) (prot0 : Nat → Nat) (target detour n oa : Nat),
      0 < dfuel → hookNumCopy m0 target true dfuel 8 0 = some n →
      4068 ≤ n → n ≤ 4075 → target % 0x1000 = 0 → 2 ^ 31 ≤ target → target < 2 ^ 60 →
      (∀ k, k < 0x1004 → m0 (target + 0x2000 + k) = 0) → target + 0x4000 ≤ oa →
      sint 64 (wrapI 64 ((detour : Int) - ((target : Int) + 5))) > 2 ^ 31 - 1 →
      ∃ st', nmd_hook dfuel osAll pokAll ⟨m0, 0, prot0⟩ target detour (some oa) =
          some (st', false, none) ∧ read64 st'.mem oa = target + 0x100C) := by
  constructor
  · intro dfuel m0 prot0 target detour n oa hdec hthi
    refine ⟨_, hook_prot_fail_state dfuel m0 prot0 target detour n oa hdec, ?_⟩
    rw [read64_write64_self]
    omega
  · intro dfuel m0 prot0 target detour n oa hdf hdec hn hnb htal htlo hthi hzero hoa hfar
    refine ⟨_, hook_stub_fail_state dfuel m0 prot0 target detour n oa hdf hdec hn hnb htal htlo
      hzero hoa hfar, ?_⟩
    show read64 (stubFailMem m0 target n oa) oa = target + 0x100C
    simp only [stubFailMem]
    rw [read64_zeroRegion_out _ _ _ _ (by omega), read64_write64_ne _ _ _ _ (by omega),
      read64_write64_self]
    omega

/-- Witness for C9: both failure paths at concrete inputs.  Part 1: five nops
at `0x5000`, protection denied.  Part 2: an instruction of 4068 REX prefixes
and one nop at `0x80000000` (patch length 4069), far detour `0x100010000`;
the stub allocation fails by the inverted subsequent-page test. -/
theorem C9_witness :
    (∃ st', nmd_hook 0x40 osAll pokNone ⟨fun _ => 0x90, 0, fun _ => 0x20⟩ 0x5000 0x6000
        (some 0x20000) = some (st', false, none) ∧ read64 st'.mem 0x20000 = 0x5000 + 0x100C) ∧
    (∃ st', nmd_hook 0x2000 osAll pokAll ⟨c9bMem, 0, fun _ => 0x20⟩ 0x80000000 0x100010000
        (some 0x80004000) = some (st', false, none) ∧
      read64 st'.mem 0x80004000 = 0x80000000 + 0x100C) :=
  ⟨C9_original_overwritten.1 0x40 (fun _ => 0x90) (fun _ => 0x20) 0x5000 0x6000 5 0x20000
      (by decide) (by norm_num),
   C9_original_overwritten.2 0x2000 c9bMem (fun _ => 0x20) 0x80000000 0x100010000 4069 0x80004000
      (by norm_num) c9b_hdec (by norm_num) (by norm_num) (by norm_num) (by norm_num) (by norm_num)
      c9b_hzero (by norm_num) c9b_hfar⟩


set_option maxRecDepth 40000 in
set_option maxHeartbeats 4000000 in
/-- Claim C2: the claim says every allocation/protection failure aborts with
the target unmodified, protection restored on every exit path, and any
partially-built trampoline record freed.  What the code guarantees (amended):
(1) when the OS denies the trampoline page, the state is entirely unchanged;
(2) when the protection change is denied, the hook returns `false` with the
target bytes and protection maps untouched — but the trampoline record it
built stays allocated (type 1, size `n + 5` at the fresh page), it is not
freed; (3) when the absolute-jump-stub allocation fails after a successful
protection change, the hook returns `false` with the target bytes untouched —
but the target's protection is left at `0x40` (`PAGE_EXECUTE_READWRITE`), not
restored. -/
theorem C2_failure_paths :
    (∀ (dfuel : Nat) (m0 : Mem) (prot0 : Nat → Nat) (pok : Nat → Nat → Bool)
        (target detour n : Nat) (org : Option Nat),
      hookNumCopy m0 target true dfuel 8 0 = some n →
      nmd_hook dfuel osNone pok ⟨m0, 0, prot0⟩ target detour org =
        some (⟨m0, 0, prot0⟩, false, none)) ∧
    (∀ (dfuel : Nat) (m0 : Mem) (prot0 : Nat → Nat) (target detour n oa : Nat),
      hookNumCopy m0 target true dfuel 8 0 = some n → n ≤ 0xF00 → target + 0x2000 ≤ oa →
      ∃ st', nmd_hook dfuel osAll pokNone ⟨m0, 0, prot0⟩ target detour (some oa) =
          some (st', false, none) ∧
        (∀ k, k < n → read8 st'.mem (target + k) = read8 m0 (target + k)) ∧
        st'.prot = prot0 ∧
        read16 st'.mem (target + 0x1000 + 8) = 1 ∧
        read16 st'.mem (target + 0x1000 + 8 + 2) = n + 5) ∧
    (∀ (dfuel : Nat) (m0 : Mem) (prot0 : Nat → Nat) (target detour n oa : Nat),
      0 < dfuel → hookNumCopy m0 target true dfuel 8 0 = some n →
      4068 ≤ n → n ≤ 4075 → target % 0x1000 = 0 → 2 ^ 31 ≤ target →
      (∀ k, k < 0x1004 → m0 (target + 0x2000 + k) = 0) → target + 0x4000 ≤ oa →
      sint 64 (wrapI 64 ((detour : Int) - ((target : Int) + 5))) > 2 ^ 31 - 1 →
      ∃ st', nmd_hook dfuel osAll pokAll ⟨m0, 0, prot0⟩ target detour (some oa) =
          some (st', false, none) ∧
        (∀ k, k < n → read8 st'.mem (target + k) = read8 m0 (target + k)) ∧
        st'.prot target = 0x40) := by
  refine ⟨?_, ?_, ?_⟩
  · intro dfuel m0 prot0 pok target detour n org hdec
    simp (disch := omega) only [nmd_hook, hdec, _nmd_alloc_trampoline, _nmd_alloc_hook_data_near,
      allocPage_osNone, if_pos, if_neg, if_true, if_false, eq_self_iff_true]
  · intro dfuel m0 prot0 target detour n oa hdec hnb hoa
    refine ⟨_, hook_prot_fail_state dfuel m0 prot0 target detour n oa hdec, ?_, rfl, ?_, ?_⟩
    · intro k hk
      show read8 (write64 (trampFill m0 target n) oa (target + 0x1000 + 12)) (target + k) =
        read8 m0 (target + k)
      rw [read8_write64_ne _ _ _ _ (by omega), trampFill_read8_low _ _ _ _ (by omega)]
    · show read16 (write64 (trampFill m0 target n) oa (target + 0x1000 + 12))
        (target + 0x1000 + 8) = 1
      rw [read16_write64_ne _ _ _ _ (by omega), trampFill_type]
    · show read16 (write64 (trampFill m0 target n) oa (target + 0x1000 + 12))
        (target + 0x1000 + 8 + 2) = n + 5
      rw [read16_write64_ne _ _ _ _ (by omega), trampFill_size m0 target n (by omega)]
  · intro dfuel m0 prot0 target detour n oa hdf hdec hn hnb htal htlo hzero hoa hfar
    refine ⟨_, hook_stub_fail_state dfuel m0 prot0 target detour n oa hdf hdec hn hnb htal htlo
      hzero hoa hfar, ?_, ?_⟩
    · intro k hk
      show read8 (stubFailMem m0 target n oa) (target + k) = read8 m0 (target + k)
      simp only [stubFailMem]
      rw [read8_zeroRegion_out _ _ _ _ (by omega), read8_write64_ne _ _ _ _ (by omega),
        read8_write64_ne _ _ _ _ (by omega), read8_write32_ne _ _ _ _ (by omega),
        read8_write8_ne _ _ _ _ (by omega), read8_copyLoop_out _ _ _ _ _ (by omega)]
      simp only [allocFreshPageFormat]
      rw [read8_write16_ne _ _ _ _ (by omega), read8_write16_ne _ _ _ _ (by omega),
        read8_write16_ne _ _ _ _ (by omega), read8_zeroRegion_out _ _ _ _ (by omega)]
    · show setProt prot0 target n 0x40 target = 0x40
      exact setProt_in _ _ _ _ _ ⟨by omega, by omega⟩

/-- Witness for C2: the three failure paths at concrete inputs — five nops at
`0x5000` with the OS denying pages (path 1) and with the protection change
denied (path 2), and the 4069-byte-instruction target at `0x80000000` with a
far detour whose stub allocation fails (path 3). -/
theorem C2_witness :
    nmd_hook 0x40 osNone pokAll ⟨fun _ => 0x90, 0, fun _ => 0x20⟩ 0x5000 0x6000 none =
      some (⟨fun _ => 0x90, 0, fun _ => 0x20⟩, false, none) ∧
    (∃ st', nmd_hook 0x40 osAll pokNone ⟨fun _ => 0x90, 0, fun _ => 0x20⟩ 0x5000 0x6000
        (some 0x20000) = some (st', false, none) ∧
      (∀ k, k < 5 → read8 st'.mem (0x5000 + k) = read8 (fun _ => 0x90) (0x5000 + k)) ∧
      st'.prot = (fun _ => 0x20) ∧
      read16 st'.mem (0x5000 + 0x1000 + 8) = 1 ∧
      read16 st'.mem (0x5000 + 0x1000 + 8 + 2) = 5 + 5) ∧
    (∃ st', nmd_hook 0x2000 osAll pokAll ⟨c9bMem, 0, fun _ => 0x20⟩ 0x80000000 0x100010000
        (some 0x80004000) = some (st', false, none) ∧
      (∀ k, k < 4069 → read8 st'.mem (0x80000000 + k) = read8 c9bMem (0x80000000 + k)) ∧
      st'.prot 0x80000000 = 0x40) :=
  ⟨C2_failure_paths.1 0x40 (fun _ => 0x90) (fun _ => 0x20) pokAll 0x5000 0x6000 5 none (by decide),
   C2_failure_paths.2.1 0x40 (fun _ => 0x90) (fun _ => 0x20) 0x5000 0x6000 5 0x20000 (by decide)
     (by norm_num) (by norm_num),
   C2_failure_paths.2.2 0x2000 c9bMem (fun _ => 0x20) 0x80000000 0x100010000 4069 0x80004000
     (by norm_num) c9b_hdec (by norm_num) (by norm_num) (by norm_num) (by norm_num)
     c9b_hzero (by norm_num) c9b_hfar⟩


/-- Claim C10: a successful hook writes exactly 5 bytes at the target — on the
short-jump success path the return value records a flush of exactly
`(target, 5)`, and every byte at `target + 5 … target + patchLength - 1`
retains its original value (those bytes are only copied into the trampoline,
never overwritten in place). -/
theorem C10_writes_five_bytes :
    ∀ (dfuel : Nat) (m0 : Mem) (prot0 : Nat → Nat) (target detour n : Nat),
      hookNumCopy m0 target true dfuel 8 0 = some n → n ≤ 0xF00 →
      -(2 ^ 31 : Int) ≤ sint 64 (wrapI 64 ((detour : Int) - ((target : Int) + 5))) →
      sint 64 (wrapI 64 ((detour : Int) - ((target : Int) + 5))) ≤ 2 ^ 31 - 1 →
      ∃ st', nmd_hook dfuel osAll pokAll ⟨m0, 0, prot0⟩ target detour none =
          some (st', true, some (target, 5)) ∧
        ∀ k, 5 ≤ k → k < n → read8 st'.mem (target + k) = read8 m0 (target + k) := by
  intro dfuel m0 prot0 target detour n hdec hnb h1 h2
  refine ⟨_, hook_short_success_state dfuel m0 prot0 target detour n hdec ⟨h1, h2⟩, ?_⟩
  intro k h5 hkn
  show read8 (write32 (write8 (trampFill m0 target n) target 0xE9) (target + 1)
      (wrapI 32 (sint 64 (wrapI 64 ((detour : Int) - ((target : Int) + 5)))))) (target + k) =
    read8 m0 (target + k)
  rw [read8_write32_ne _ _ _ _ (by omega), read8_write8_ne _ _ _ _ (by omega),
    trampFill_read8_low _ _ _ _ (by omega)]

/-- Witness for C10: the 6-byte instruction `81 C0 00 00 00 00`
(`add eax, imm32`) at `0x5000`: the patch length is 6, the hook succeeds,
flushes exactly `(0x5000, 5)`, and the byte at `0x5005` keeps its value. -/
theorem C10_witness :
    ∃ st', nmd_hook 0x40 osAll pokAll ⟨c10Mem, 0, fun _ => 0x20⟩ 0x5000 0x6000 none =
        some (st', true, some (0x5000, 5)) ∧
      ∀ k, 5 ≤ k → k < 6 → read8 st'.mem (0x5000 + k) = read8 c10Mem (0x5000 + k) :=
  C10_writes_five_bytes 0x40 c10Mem (fun _ => 0x20) 0x5000 0x6000 6 (by decide) (by norm_num)
    (by decide) (by decide)

/-- Claim C5: after a successful hook, when `delta = detour - (target + 5)`
fits in a signed 32-bit value the five bytes at the target are `0xE9` followed
by `delta` (as the 32-bit truncation of the 64-bit difference); otherwise the
target holds a near jump to a freshly allocated absolute-jump stub of 12 bytes
`48 B8 <detour:8> FF E0` (`mov rax, detour; jmp rax`), allocated in the hook
page right after the trampoline's free record. -/
theorem C5_patch_shapes :
    (∀ (dfuel : Nat) (m0 : Mem) (prot0 : Nat → Nat) (target detour n : Nat),
      hookNumCopy m0 target true dfuel 8 0 = some n →
      -(2 ^ 31 : Int) ≤ sint 64 (wrapI 64 ((detour : Int) - ((target : Int) + 5))) →
      sint 64 (wrapI 64 ((detour : Int) - ((target : Int) + 5))) ≤ 2 ^ 31 - 1 →
      ∃ st', nmd_hook dfuel osAll pokAll ⟨m0, 0, prot0⟩ target detour none =
          some (st', true, some (target, 5)) ∧
        read8 st'.mem target = 0xE9 ∧
        read32 st'.mem (target + 1) =
          wrapI 32 (sint 64 (wrapI 64 ((detour : Int) - ((target : Int) + 5))))) ∧
    (∀ (dfuel : Nat) (m0 : Mem) (prot0 : Nat → Nat) (target detour n : Nat),
      hookNumCopy m0 target true dfuel 8 0 = some n → n ≤ 0xF00 →
      target % 0x1000 = 0 → 2 ^ 31 ≤ target →
      sint 64 (wrapI 64 ((detour : Int) - ((target : Int) + 5))) > 2 ^ 31 - 1 →
      ∃ st', nmd_hook dfuel osAll pokAll ⟨m0, 0, prot0⟩ target detour none =
          some (st', true, some (target, 5)) ∧
        read8 st'.mem target = 0xE9 ∧
        read32 st'.mem (target + 1) =
          wrapI 32 (((target + 0x1000 + 8 + 4 + (n + 5) + 4 : Nat) : Int) - ((target : Int) + 5)) ∧
        read16 st'.mem (target + 0x1000 + 8 + 4 + (n + 5) + 4) = 0xB848 ∧
        read64 st'.mem (target + 0x1000 + 8 + 4 + (n + 5) + 4 + 2) = detour % 2 ^ 64 ∧
        read16 st'.mem (target + 0x1000 + 8 + 4 + (n + 5) + 4 + 10) = 0xE0FF) := by
  constructor
  · intro dfuel m0 prot0 target detour n hdec h1 h2
    refine ⟨_, hook_short_success_state dfuel m0 prot0 target detour n hdec ⟨h1, h2⟩, ?_, ?_⟩
    · show read8 (write32 (write8 (trampFill m0 target n) target 0xE9) (target + 1)
        (wrapI 32 (sint 64 (wrapI 64 ((detour : Int) - ((target : Int) + 5)))))) target = 0xE9
      rw [read8_write32_ne _ _ _ _ (by omega), read8_write8_self]
    · show read32 (write32 (write8 (trampFill m0 target n) target 0xE9) (target + 1)
        (wrapI 32 (sint 64 (wrapI 64 ((detour : Int) - ((target : Int) + 5)))))) (target + 1) =
        wrapI 32 (sint 64 (wrapI 64 ((detour : Int) - ((target : Int) + 5))))
      rw [read32_write32_self, Nat.mod_eq_of_lt (wrapI32_lt _)]
  · intro dfuel m0 prot0 target detour n hdec hnb htal htlo hfar
    refine ⟨_, hook_far_success_state dfuel m0 prot0 target detour n hdec hnb htal htlo hfar,
      ?_, ?_, ?_, ?_, ?_⟩
    · rw [read8_write32_ne _ _ _ _ (by omega), read8_write8_self]
    · rw [read32_write32_self, Nat.mod_eq_of_lt (wrapI32_lt _)]
    · rw [read16_write32_ne _ _ _ _ (by omega), read16_write8_ne _ _ _ _ (by omega),
        read16_write16_ne _ _ _ _ (by omega), read16_write64_ne _ _ _ _ (by omega),
        read16_write16_self]
    · rw [read64_write32_ne _ _ _ _ (by omega), read64_write8_ne _ _ _ _ (by omega),
        read64_write16_ne _ _ _ _ (by omega), read64_write64_self]
      norm_num
    · rw [read16_write32_ne _ _ _ _ (by omega), read16_write8_ne _ _ _ _ (by omega),
        read16_write16_self]

/-- Witness for C5: the short case hooks five nops at `0x5000` with the near
detour `0x6000`; the far case hooks five nops at `0x80000000` with the far
detour `0x100010000`, producing the absolute-jump stub in the hook page. -/
theorem C5_witness :
    (∃ st', nmd_hook 0x40 osAll pokAll ⟨fun _ => 0x90, 0, fun _ => 0x20⟩ 0x5000 0x6000 none =
        some (st', true, some (0x5000, 5)) ∧
      read8 st'.mem 0x5000 = 0xE9 ∧
      read32 st'.mem 0x5001 =
        wrapI 32 (sint 64 (wrapI 64 ((0x6000 : Int) - ((0x5000 : Int) + 5))))) ∧
    (∃ st', nmd_hook 0x40 osAll pokAll ⟨c5farMem, 0, fun _ => 0x20⟩ 0x80000000 0x100010000 none =
        some (st', true, some (0x80000000, 5)) ∧
      read8 st'.mem 0x80000000 = 0xE9 ∧
      read32 st'.mem (0x80000000 + 1) =
        wrapI 32 (((0x80000000 + 0x1000 + 8 + 4 + (5 + 5) + 4 : Nat) : Int) -
          ((0x80000000 : Int) + 5)) ∧
      read16 st'.mem (0x80000000 + 0x1000 + 8 + 4 + (5 + 5) + 4) = 0xB848 ∧
      read64 st'.mem (0x80000000 + 0x1000 + 8 + 4 + (5 + 5) + 4 + 2) = 0x100010000 % 2 ^ 64 ∧
      read16 st'.mem (0x80000000 + 0x1000 + 8 + 4 + (5 + 5) + 4 + 10) = 0xE0FF) :=
  ⟨C5_patch_shapes.1 0x40 (fun _ => 0x90) (fun _ => 0x20) 0x5000 0x6000 5 (by decide)
      (by decide) (by decide),
   C5_patch_shapes.2 0x40 c5farMem (fun _ => 0x20) 0x80000000 0x100010000 5 (by decide)
      (by norm_num) (by norm_num) (by norm_num) c9b_hfar⟩

/-- Claim C6: the claim says the re-emitted trampoline jump's absolute
destination equals the original's, and the trailing jump's destination equals
`target + patchLength`.  Amended: the displacements are truncated to 32 bits,
so the destination equalities hold modulo `2^32` (and fail in general, see the
counterexample); the non-jump case is a verbatim byte copy, and the trailing
5-byte jump is `0xE9` with destination `target + patchLength` modulo `2^32`. -/
theorem C6_trampoline_reloc :
    ∀ (dfuel : Nat) (m0 : Mem) (prot0 : Nat → Nat) (target detour n : Nat),
      hookNumCopy m0 target true dfuel 8 0 = some n → 5 ≤ n → n ≤ 0xF00 →
      -(2 ^ 31 : Int) ≤ sint 64 (wrapI 64 ((detour : Int) - ((target : Int) + 5))) →
      sint 64 (wrapI 64 ((detour : Int) - ((target : Int) + 5))) ≤ 2 ^ 31 - 1 →
      ∃ st', nmd_hook dfuel osAll pokAll ⟨m0, 0, prot0⟩ target detour none =
          some (st', true, some (target, 5)) ∧
        (read8 m0 target = 0xE9 →
          read8 st'.mem (target + 0x1000 + 12) = 0xE9 ∧
          jumpDest (target + 0x1000 + 12) (read32 st'.mem (target + 0x1000 + 12 + 1)) % 2 ^ 32 =
            jumpDest target (read32 m0 (target + 1)) % 2 ^ 32) ∧
        (¬ read8 m0 target = 0xE9 →
          ∀ k, k < n → read8 st'.mem (target + 0x1000 + 12 + k) = read8 m0 (target + k)) ∧
        read8 st'.mem (target + 0x1000 + 12 + n) = 0xE9 ∧
        jumpDest (target + 0x1000 + 12 + n)
            (read32 st'.mem (target + 0x1000 + 12 + n + 1)) % 2 ^ 32 =
          (target + n) % 2 ^ 32 := by
  intro dfuel m0 prot0 target detour n hdec hn hnb h1 h2
  refine ⟨_, hook_short_success_state dfuel m0 prot0 target detour n hdec ⟨h1, h2⟩,
    ?_, ?_, ?_, ?_⟩
  · intro hE9m
    have hE9A : read8 (allocFreshPageFormat (zeroRegion m0 (target + 0x1000) 0x1000)
        (target + 0x1000) 1 (n + 5)) target = 0xE9 := by
      unfold allocFreshPageFormat
      rw [read8_write16_ne _ _ _ _ (by omega), read8_write16_ne _ _ _ _ (by omega),
        read8_write16_ne _ _ _ _ (by omega), read8_zeroRegion_out _ _ _ _ (by omega)]
      exact hE9m
    have htf : trampFill m0 target n = write32 (write8 (write32 (write8
        (allocFreshPageFormat (zeroRegion m0 (target + 0x1000) 0x1000) (target + 0x1000) 1 (n + 5))
        (target + 0x1000 + 12) 0xE9) (target + 0x1000 + 12 + 1)
        (wrapI 32 ((sint 32 (read32 (allocFreshPageFormat (zeroRegion m0 (target + 0x1000) 0x1000)
            (target + 0x1000) 1 (n + 5)) (target + 1)) + ((target : Int) + 5)) -
          (((target + 0x1000 + 12 : Nat) : Int) + 5))))
        (target + 0x1000 + 12 + n) 0xE9) (target + 0x1000 + 12 + n + 1)
        (wrapI 32 (((target : Int) + (n : Int)) -
          (((target + 0x1000 + 12 : Nat) : Int) + (n : Int) + 5))) := by
      simp only [trampFill]
      rw [if_pos hE9A]
    constructor
    · rw [read8_write32_ne _ _ _ _ (by omega), read8_write8_ne _ _ _ _ (by omega), htf,
        read8_write32_ne _ _ _ _ (by omega), read8_write8_ne _ _ _ _ (by omega),
        read8_write32_ne _ _ _ _ (by omega), read8_write8_self]
    · have hr : read32 (write32 (write8 (trampFill m0 target n) target 0xE9) (target + 1)
          (wrapI 32 (sint 64 (wrapI 64 ((detour : Int) - ((target : Int) + 5))))))
          (target + 0x1000 + 12 + 1) =
          wrapI 32 ((sint 32 (read32 m0 (target + 1)) + ((target : Int) + 5)) -
            (((target + 0x1000 + 12 : Nat) : Int) + 5)) := by
        rw [read32_write32_ne _ _ _ _ (by omega), read32_write8_ne _ _ _ _ (by omega), htf,
          read32_write32_ne _ _ _ _ (by omega), read32_write8_ne _ _ _ _ (by omega),
          read32_write32_self, Nat.mod_eq_of_lt (wrapI32_lt _),
          format_read32_low m0 target n (target + 1) (by omega)]
      rw [hr, jumpDest_wrapI32, jumpDest_mod]
      omega
  · intro hE9m k hk
    have hE9A : ¬ read8 (allocFreshPageFormat (zeroRegion m0 (target + 0x1000) 0x1000)
        (target + 0x1000) 1 (n + 5)) target = 0xE9 := by
      unfold allocFreshPageFormat
      rw [read8_write16_ne _ _ _ _ (by omega), read8_write16_ne _ _ _ _ (by omega),
        read8_write16_ne _ _ _ _ (by omega), read8_zeroRegion_out _ _ _ _ (by omega)]
      exact hE9m
    have htf : trampFill m0 target n = write32 (write8 (copyLoop
        (allocFreshPageFormat (zeroRegion m0 (target + 0x1000) 0x1000) (target + 0x1000) 1 (n + 5))
        (target + 0x1000 + 12) target n) (target + 0x1000 + 12 + n) 0xE9)
        (target + 0x1000 + 12 + n + 1)
        (wrapI 32 (((target : Int) + (n : Int)) -
          (((target + 0x1000 + 12 : Nat) : Int) + (n : Int) + 5))) := by
      simp only [trampFill]
      rw [if_neg hE9A]
    rw [read8_write32_ne _ _ _ _ (by omega), read8_write8_ne _ _ _ _ (by omega), htf,
      read8_write32_ne _ _ _ _ (by omega), read8_write8_ne _ _ _ _ (by omega),
      read8_copyLoop_in _ _ _ _ _ (by omega) hk]
    simp only [allocFreshPageFormat]
    rw [read8_write16_ne _ _ _ _ (by omega), read8_write16_ne _ _ _ _ (by omega),
      read8_write16_ne _ _ _ _ (by omega), read8_zeroRegion_out _ _ _ _ (by omega)]
  · rw [read8_write32_ne _ _ _ _ (by omega), read8_write8_ne _ _ _ _ (by omega)]
    simp only [trampFill]
    rw [read8_write32_ne _ _ _ _ (by omega), read8_write8_self]
  · have hr : read32 (write32 (write8 (trampFill m0 target n) target 0xE9) (target + 1)
        (wrapI 32 (sint 64 (wrapI 64 ((detour : Int) - ((target : Int) + 5))))))
        (target + 0x1000 + 12 + n + 1) =
        wrapI 32 (((target : Int) + (n : Int)) -
          (((target + 0x1000 + 12 : Nat) : Int) + (n : Int) + 5)) := by
      rw [read32_write32_ne _ _ _ _ (by omega), read32_write8_ne _ _ _ _ (by omega)]
      simp only [trampFill]
      rw [read32_write32_self, Nat.mod_eq_of_lt (wrapI32_lt _)]
    rw [hr, jumpDest_wrapI32]
    omega

/-- Witness for C6: the 6-byte non-jump instruction at `0x5000` with a near
detour: the trampoline holds a verbatim copy of the six bytes and a trailing
jump whose destination is `0x5006` modulo `2^32`. -/
theorem C6_witness :
    ∃ st', nmd_hook 0x40 osAll pokAll ⟨c10Mem, 0, fun _ => 0x20⟩ 0x5000 0x6000 none =
        some (st', true, some (0x5000, 5)) ∧
      (read8 c10Mem 0x5000 = 0xE9 →
        read8 st'.mem (0x5000 + 0x1000 + 12) = 0xE9 ∧
        jumpDest (0x5000 + 0x1000 + 12) (read32 st'.mem (0x5000 + 0x1000 + 12 + 1)) % 2 ^ 32 =
          jumpDest 0x5000 (read32 c10Mem (0x5000 + 1)) % 2 ^ 32) ∧
      (¬ read8 c10Mem 0x5000 = 0xE9 →
        ∀ k, k < 6 → read8 st'.mem (0x5000 + 0x1000 + 12 + k) = read8 c10Mem (0x5000 + k)) ∧
      read8 st'.mem (0x5000 + 0x1000 + 12 + 6) = 0xE9 ∧
      jumpDest (0x5000 + 0x1000 + 12 + 6)
          (read32 st'.mem (0x5000 + 0x1000 + 12 + 6 + 1)) % 2 ^ 32 =
        (0x5000 + 6) % 2 ^ 32 :=
  C6_trampoline_reloc 0x40 c10Mem (fun _ => 0x20) 0x5000 0x6000 6 (by decide) (by norm_num)
    (by norm_num) (by decide) (by decide)

/-- Claim C8: the claim says freeing then requesting an equal-or-smaller size
returns the same memory, and adjacent free records merge into one of the
summed size.  Amended: the allocator is first-fit over the whole page — a find
returns the first record that is Free and large enough (so the freed record's
memory is returned only when no earlier free record fits; in the reuse
scenario the request returns record A's payload `0x1100C`, not the freed
record B's `0x1101A`, see the counterexample) — the page list indeed does not
grow (`first` unchanged, page's `next` still null), and the merged record's
size field is the sum of the two sizes plus the absorbed 4-byte header
(`15 + 4 + 4051`). -/
theorem C8_allocator_reuse :
    (∀ (m : Mem) (size fuel hd : Nat), 0 < fuel → read16 m hd = 0 →
      size ≤ read16 m (hd + 2) → findFreeGo m size fuel hd = hd) ∧
    read16 c8unSt.mem 0x11018 = 15 + 4 + 4051 ∧
    ((_nmd_alloc_hook_data_near osAll c8unSt 0x10200 1 10).2 = 0x1100C ∧
      (_nmd_alloc_hook_data_near osAll c8unSt 0x10200 1 10).1.first = 0x11000 ∧
      read64 (_nmd_alloc_hook_data_near osAll c8unSt 0x10200 1 10).1.mem 0x11000 = 0) := by
  have hst : c8unSt =
      { mem := write16 (write16 (copyLoop c8mem 0x10100 0x1101A 10) 0x11016 0) 0x11018 4070,
        first := 0x11000,
        prot := setProt (setProt (fun _ => 0x20) 0x10100 10 0x40) 0x10100 10 0x20 } := by
    simp only [c8unSt, c8un_eval]
  refine ⟨?_, ?_, ?_, ?_, ?_⟩
  · intro m size fuel hd hf h0 hs
    rw [findFreeGo_unfold _ _ _ _ hf, h0, if_neg (by omega)]
  · rw [hst]
    decide
  · rw [hst]
    decide
  · rw [hst]
    decide
  · rw [hst]
    decide

/-- Witness for C8's general first-fit conjunct at a concrete memory: the
record at `8` is Free with size `25700`, so a request of 16 bytes returns it
immediately. -/
theorem C8_witness :
    findFreeGo (fun a => if a = 10 ∨ a = 11 then 100 else 0) 16 64 8 = 8 :=
  C8_allocator_reuse.1 (fun a => if a = 10 ∨ a = 11 then 100 else 0) 16 64 8 (by norm_num)
    (by decide) (by decide)

/-- Claim C1: the claim says hook-then-unhook restores the original bytes at
the target exactly and a second unhook fails, for every installable target.
Amended and proved universally for the near-detour install of any page-aligned
target whose first instruction is not itself a `0xE9` near jump, from a fresh
engine state whose memory reads zero on the 4 KB that follow the hook page's
record-walk overhang (`[target + 0x2004, target + 0x3000)`) — the unhook walk
runs past the page end (claim C3's defect) and its verdict depends on that
adjacent memory: the hook succeeds, the unhook reports success and restores
all `n` decoded bytes exactly, and a second unhook of the same target returns
failure.  The jump-leading case restores a re-emitted displacement instead,
see the counterexample. -/
theorem C1_roundtrip_restores (dfuel : Nat) (m0 : Mem) (prot0 : Nat → Nat)
    (target detour n : Nat)
    (hdec : hookNumCopy m0 target true dfuel 8 0 = some n)
    (hnb : n ≤ 0xF00)
    (hE9 : ¬ read8 m0 target = 0xE9)
    (htal : target % 0x1000 = 0)
    (hzero : ∀ x, target + 0x2004 ≤ x → x < target + 0x3000 → read8 m0 x = 0)
    (hnear : -(2 ^ 31 : Int) ≤ sint 64 (wrapI 64 ((detour : Int) - ((target : Int) + 5))) ∧
      sint 64 (wrapI 64 ((detour : Int) - ((target : Int) + 5))) ≤ 2 ^ 31 - 1) :
    ∃ hookedSt unhookedSt,
      nmd_hook dfuel osAll pokAll ⟨m0, 0, prot0⟩ target detour none =
        some (hookedSt, true, some (target, 5)) ∧
      nmd_unhook pokAll hookedSt target = (unhookedSt, true) ∧
      (∀ k, k < n → read8 unhookedSt.mem (target + k) = read8 m0 (target + k)) ∧
      (nmd_unhook pokAll unhookedSt target).2 = false := by
  have hhook := hook_short_success_state dfuel m0 prot0 target detour n hdec hnear
  generalize hWdef : wrapI 32 (sint 64 (wrapI 64 ((detour : Int) - ((target : Int) + 5)))) = W
    at hhook
  have hun := unhook_match_first
    (write32 (write8 (trampFill m0 target n) target 0xE9) (target + 1) W)
    (setProt (setProt prot0 target n 0x40) target n (prot0 target)) target n hnb htal
    (hookedMem_type m0 target n W) (hookedMem_size m0 target n W hnb)
    (hookedMem_disp m0 target n W) (hookedMem_freeType m0 target n W hnb)
    (hookedMem_freeSize m0 target n W hnb)
  have hbytes : ∀ k, k < n →
      read8 (write16 (write16 (copyLoop
          (write32 (write8 (trampFill m0 target n) target 0xE9) (target + 1) W)
          target (target + 0x1000 + 8 + 4) n) (target + 0x1000 + 8) 0)
        (target + 0x1000 + 8 + 2) (n + 5 + 4 + (4079 - n))) (target + k) =
      read8 m0 (target + k) := by
    intro k hk
    rw [read8_write16_ne _ _ _ _ (by omega), read8_write16_ne _ _ _ _ (by omega),
      read8_copyLoop_in _ _ _ _ _ (by omega) hk]
    exact hookedMem_copy m0 target n W k hnb hk hE9
  have hc1 : read16 (write16 (write16 (copyLoop
      (write32 (write8 (trampFill m0 target n) target 0xE9) (target + 1) W)
      target (target + 0x1000 + 8 + 4) n) (target + 0x1000 + 8) 0)
      (target + 0x1000 + 8 + 2) (n + 5 + 4 + (4079 - n))) (target + 0x1000 + 8) = 0 := by
    rw [read16_write16_ne _ _ _ _ (by omega), read16_write16_self, Nat.zero_mod]
  have hc2 : read16 (write16 (write16 (copyLoop
      (write32 (write8 (trampFill m0 target n) target 0xE9) (target + 1) W)
      target (target + 0x1000 + 8 + 4) n) (target + 0x1000 + 8) 0)
      (target + 0x1000 + 8 + 2) (n + 5 + 4 + (4079 - n))) (target + 0x1000 + 8 + 2) =
      n + 5 + 4 + (4079 - n) := by
    rw [read16_write16_self]
    omega
  have hc3 : ∀ x, target + 0x2004 ≤ x → x < target + 0x3000 →
      read8 (write16 (write16 (copyLoop
        (write32 (write8 (trampFill m0 target n) target 0xE9) (target + 1) W)
        target (target + 0x1000 + 8 + 4) n) (target + 0x1000 + 8) 0)
        (target + 0x1000 + 8 + 2) (n + 5 + 4 + (4079 - n))) x = 0 := by
    intro x hx1 hx2
    rw [read8_write16_ne _ _ _ _ (by omega), read8_write16_ne _ _ _ _ (by omega),
      read8_copyLoop_out _ _ _ _ _ (by omega), read8_write32_ne _ _ _ _ (by omega),
      read8_write8_ne _ _ _ _ (by omega),
      trampFill_read8_high m0 target n x hnb (by omega)]
    exact hzero x (by omega) hx2
  have hc4 : read64 (write16 (write16 (copyLoop
      (write32 (write8 (trampFill m0 target n) target 0xE9) (target + 1) W)
      target (target + 0x1000 + 8 + 4) n) (target + 0x1000 + 8) 0)
      (target + 0x1000 + 8 + 2) (n + 5 + 4 + (4079 - n))) (target + 0x1000) = 0 := by
    rw [read64_write16_ne _ _ _ _ (by omega), read64_write16_ne _ _ _ _ (by omega),
      read64_copyLoop_out _ _ _ _ _ (by omega), read64_write32_ne _ _ _ _ (by omega),
      read64_write8_ne _ _ _ _ (by omega), trampFill_read64_page0 m0 target n]
  have hsecond := unhook_second_fails
    (write16 (write16 (copyLoop
      (write32 (write8 (trampFill m0 target n) target 0xE9) (target + 1) W)
      target (target + 0x1000 + 8 + 4) n) (target + 0x1000 + 8) 0)
      (target + 0x1000 + 8 + 2) (n + 5 + 4 + (4079 - n)))
    (setProt (setProt (setProt (setProt prot0 target n 0x40) target n (prot0 target))
        target n 0x40) target n
      (setProt (setProt prot0 target n 0x40) target n (prot0 target) target))
    target n hnb htal hc1 hc2 hc3 hc4
  refine ⟨_, _, hhook, hun, hbytes, ?_⟩
  rw [hsecond]

/-- Witness for C1 at the five-nop target `0x10000` with detour `0x10100`:
every hypothesis is discharged concretely (the decoder returns 5, the first
byte is `0x90`, the target is page-aligned, the memory past the overhang is
zero, and the detour delta is near). -/
theorem C1_witness :
    ∃ hookedSt unhookedSt,
      nmd_hook 0x40 osAll pokAll ⟨nopMem, 0, fun _ => 0x20⟩ 0x10000 0x10100 none =
        some (hookedSt, true, some (0x10000, 5)) ∧
      nmd_unhook pokAll hookedSt 0x10000 = (unhookedSt, true) ∧
      (∀ k, k < 5 → read8 unhookedSt.mem (0x10000 + k) = read8 nopMem (0x10000 + k)) ∧
      (nmd_unhook pokAll unhookedSt 0x10000).2 = false :=
  C1_roundtrip_restores 0x40 nopMem (fun _ => 0x20) 0x10000 0x10100 5 (by decide) (by norm_num)
    (by decide) (by norm_num)
    (fun x h1 h2 => by
      simp only [read8, nopMem]
      rw [if_neg (by omega)])
    ⟨by decide, by decide⟩

end NmdHookEngine
